import Mathlib

/-!
# Verification of the AbraLang core (type system, compiler, VM)

Shallow embedding of the Abra language implementation:
* the type model and `is_subtype_of` from `src/compiler/typecheck.rs`,
* the type checker (`TypeChecker::check`, `check_statement_block`,
  `type_eval_expression`) from the same file,
* the AST-to-bytecode compiler from `src/compiler/compile.rs`,
* the runtime values and the bytecode virtual machine from
  `src/runtime/value.rs`, `src/runtime/object.rs`, `src/runtime/vm.rs`,
  and the inbuilt-function table from `src/runtime/inbuilt.rs`.

Modelling conventions:
* Rust `i64` payloads are `Int`; the handful of spots where the Rust code
  relies on wrapping/overflow play no role in the theorems below.
* `f64` payloads (`OrderedFloat<f64>`) are represented by `Rat`.  IEEE-754
  rounding is not modelled; every theorem below that touches floats depends
  only on the *constructor* of the produced value, never on the numeric
  payload of a float computation.
* Rust `HashMap`s are association lists with replace-on-insert semantics.
* Fallible Rust code (`anyhow::Result`, panics, `HashMap` index panics,
  slice-index panics) returns `Except VmErr` / `Option`; each panic site is
  mapped to a distinct error value.
-/

namespace Abra

/-- `Primitives` from `src/compiler/typecheck.rs`. -/
inductive Primitives where
  | Integer
  | Float
  | Char
  | Bool
  | String
deriving DecidableEq, Repr

mutual
/-- `Type` from `src/compiler/typecheck.rs` (named `Ty` because `Type` is
reserved in Lean).  `Abra`'s payload is the class name. -/
inductive Ty where
  | Null
  | Primitive (p : Primitives)
  | Composite (c : Composite)
  | Algebraic (a : Algebraic)
  | Abra (name : String)
deriving DecidableEq, Repr

/-- `Composite` from `src/compiler/typecheck.rs`. -/
inductive Composite where
  | Array (t : Ty)
  | Map (k v : Ty)
  | HeapValue (t : Ty)
deriving DecidableEq, Repr

/-- `Algebraic` from `src/compiler/typecheck.rs`. -/
inductive Algebraic where
  | Or (t1 t2 : Ty)
deriving DecidableEq, Repr
end

/-- `Type::or` constructor helper from `src/compiler/typecheck.rs`. -/
def Ty.or (t1 t2 : Ty) : Ty := Ty.Algebraic (Algebraic.Or t1 t2)

/-- `Type::array` constructor helper. -/
def Ty.array (t : Ty) : Ty := Ty.Composite (Composite.Array t)

/-- `Type::map` constructor helper. -/
def Ty.map (k v : Ty) : Ty := Ty.Composite (Composite.Map k v)

/-- `Type::heap` constructor helper. -/
def Ty.heap (t : Ty) : Ty := Ty.Composite (Composite.HeapValue t)

/-- `INTEGER_TYPE` from `src/compiler/typecheck.rs`. -/
def INTEGER_TYPE : Ty := Ty.Primitive Primitives.Integer
/-- `FLOAT_TYPE`. -/
def FLOAT_TYPE : Ty := Ty.Primitive Primitives.Float
/-- `CHAR_TYPE`. -/
def CHAR_TYPE : Ty := Ty.Primitive Primitives.Char
/-- `BOOL_TYPE`. -/
def BOOL_TYPE : Ty := Ty.Primitive Primitives.Bool
/-- `STRING_TYPE`. -/
def STRING_TYPE : Ty := Ty.Primitive Primitives.String

/-- `Type::is_subtype_of` from `src/compiler/typecheck.rs` lines 49-106,
translated clause by clause, in the source's evaluation order:
structural equality, `Null` on the left, `Null` on the right, `Or` on the
right, `Or` on the left, then the base-type comparison. -/
def Ty.is_subtype_of (s other : Ty) : Bool :=
  if s = other then true
  else if s = Ty.Null then true
  else if other = Ty.Null then true
  else
    -- A simultaneous match encodes the source's branch priority: the
    -- `Or`-on-the-right rule fires before the `Or`-on-the-left rule.
    match s, other with
    | s, Ty.Algebraic (Algebraic.Or o1 o2) =>
        s.is_subtype_of o1 || s.is_subtype_of o2
    | Ty.Algebraic (Algebraic.Or s1 s2), other =>
        s1.is_subtype_of other && s2.is_subtype_of other
    | Ty.Primitive p1, Ty.Primitive p2 => p1 = p2
    | Ty.Abra a1, Ty.Abra a2 => a1 = a2
    | Ty.Composite (Composite.Array st), Ty.Composite (Composite.Array ot) =>
        st.is_subtype_of ot
    | Ty.Composite (Composite.Map sk sv), Ty.Composite (Composite.Map ok ov) =>
        (sk.is_subtype_of ok && ok.is_subtype_of sk) && sv.is_subtype_of ov
    | Ty.Composite (Composite.HeapValue st), Ty.Composite (Composite.HeapValue ot) =>
        st.is_subtype_of ot
    | _, _ => false
termination_by sizeOf s + sizeOf other
decreasing_by all_goals (simp_wf; omega)

/-- Whether a type is a top-level union (`Type::Algebraic(Or(..))`). -/
def Ty.isUnion : Ty → Bool
  | Ty.Algebraic (Algebraic.Or _ _) => true
  | _ => false

/-- The first branch of `is_subtype_of`: `T <: T` for every `T`. -/
lemma sub_refl (t : Ty) : t.is_subtype_of t = true := by
  rw [Ty.is_subtype_of.eq_def]; simp

/-- The second branch of `is_subtype_of`: `Null <: T` for every `T`. -/
lemma sub_null_left (t : Ty) : Ty.Null.is_subtype_of t = true := by
  rw [Ty.is_subtype_of.eq_def]; simp

/-- The third branch of `is_subtype_of`: `T <: Null` for every `T`. -/
lemma sub_null_right (t : Ty) : t.is_subtype_of Ty.Null = true := by
  rw [Ty.is_subtype_of.eq_def]; simp

/-- Exact law for a union on the right: the structural-equality short-circuit
fires before the `Or` decomposition, so `S <: (T1|T2)` iff `S = T1|T2` or
`S <: T1` or `S <: T2`. -/
lemma sub_or_right (s o1 o2 : Ty) :
    s.is_subtype_of (Ty.Algebraic (Algebraic.Or o1 o2)) =
      (decide (s = Ty.Algebraic (Algebraic.Or o1 o2)) ||
        s.is_subtype_of o1 || s.is_subtype_of o2) := by
  by_cases h : s = Ty.Algebraic (Algebraic.Or o1 o2)
  · subst h; rw [Ty.is_subtype_of.eq_def]; simp
  · by_cases hn : s = Ty.Null
    · subst hn; simp [sub_null_left, h]
    · rw [Ty.is_subtype_of.eq_def]; simp [h, hn]

/-- Exact law for a union on the left when the right side is not itself a
union: `(S1|S2) <: T` iff `S1 <: T` and `S2 <: T`. -/
lemma sub_or_left (s1 s2 T : Ty) (h : T.isUnion = false) :
    (Ty.Algebraic (Algebraic.Or s1 s2)).is_subtype_of T =
      (s1.is_subtype_of T && s2.is_subtype_of T) := by
  by_cases hnull : T = Ty.Null
  · subst hnull; simp [sub_null_right]
  · cases T with
    | Null => exact absurd rfl hnull
    | Primitive p => rw [Ty.is_subtype_of.eq_def]; simp
    | Composite c => rw [Ty.is_subtype_of.eq_def]; simp
    | Algebraic a =>
        cases a with
        | Or t1 t2 => simp [Ty.isUnion] at h
    | Abra n => rw [Ty.is_subtype_of.eq_def]; simp

/-- C6: `is_subtype_of` is reflexive for every type construction, and `Null`
is a subtype of every type and every type a subtype of `Null` (both
directions hold). -/
theorem C6_subtyping_reflexive_null_both_directions (t : Ty) :
    t.is_subtype_of t = true ∧
    Ty.Null.is_subtype_of t = true ∧
    t.is_subtype_of Ty.Null = true :=
  ⟨sub_refl t, sub_null_left t, sub_null_right t⟩

/-- C5 counterexample: the claimed law `(S1|S2) <: T iff S1 <: T and S2 <: T`
fails when `T` is itself a union.  At `S1 = Integer`, `S2 = Bool`,
`T = (Bool|Integer)`, both branches are subtypes of `T` yet
`(Integer|Bool) <: (Bool|Integer)` is `false`; likewise the claimed law
`S <: (T1|T2) iff S <: T1 or S <: T2` fails at `S = (Integer|Bool)`,
`T1 = Integer`, `T2 = Bool`, where `S <: (T1|T2)` holds (reflexivity) but
neither disjunct does. -/
theorem C5_union_subtyping_counterexample :
    (Ty.is_subtype_of
        (Ty.Algebraic (Algebraic.Or (Ty.Primitive Primitives.Integer)
          (Ty.Primitive Primitives.Bool)))
        (Ty.Algebraic (Algebraic.Or (Ty.Primitive Primitives.Bool)
          (Ty.Primitive Primitives.Integer))) = false
      ∧ Ty.is_subtype_of (Ty.Primitive Primitives.Integer)
          (Ty.Algebraic (Algebraic.Or (Ty.Primitive Primitives.Bool)
            (Ty.Primitive Primitives.Integer))) = true
      ∧ Ty.is_subtype_of (Ty.Primitive Primitives.Bool)
          (Ty.Algebraic (Algebraic.Or (Ty.Primitive Primitives.Bool)
            (Ty.Primitive Primitives.Integer))) = true)
    ∧ (Ty.is_subtype_of
          (Ty.Algebraic (Algebraic.Or (Ty.Primitive Primitives.Integer)
            (Ty.Primitive Primitives.Bool)))
          (Ty.Algebraic (Algebraic.Or (Ty.Primitive Primitives.Integer)
            (Ty.Primitive Primitives.Bool))) = true
        ∧ Ty.is_subtype_of
            (Ty.Algebraic (Algebraic.Or (Ty.Primitive Primitives.Integer)
              (Ty.Primitive Primitives.Bool)))
            (Ty.Primitive Primitives.Integer) = false
        ∧ Ty.is_subtype_of
            (Ty.Algebraic (Algebraic.Or (Ty.Primitive Primitives.Integer)
              (Ty.Primitive Primitives.Bool)))
            (Ty.Primitive Primitives.Bool) = false) :=
  ⟨⟨by simp [Ty.is_subtype_of], by simp [Ty.is_subtype_of], by simp [Ty.is_subtype_of]⟩,
   ⟨by simp [Ty.is_subtype_of], by simp [Ty.is_subtype_of], by simp [Ty.is_subtype_of]⟩⟩

/-- C5 amended: the union laws hold exactly in this form — `S <: (T1|T2)`
iff `S` equals `T1|T2` structurally, or `S <: T1`, or `S <: T2` (the
right-union rule also takes precedence when `S` is itself a union); and
`(S1|S2) <: T` iff `S1 <: T` and `S2 <: T`, provided `T` is not itself a
top-level union. -/
theorem C5_union_subtyping_amended (S T1 T2 S1 S2 T : Ty)
    (h : T.isUnion = false) :
    (Ty.is_subtype_of S (Ty.Algebraic (Algebraic.Or T1 T2)) =
      (decide (S = Ty.Algebraic (Algebraic.Or T1 T2)) ||
        Ty.is_subtype_of S T1 || Ty.is_subtype_of S T2))
    ∧ (Ty.is_subtype_of (Ty.Algebraic (Algebraic.Or S1 S2)) T =
      (Ty.is_subtype_of S1 T && Ty.is_subtype_of S2 T)) :=
  ⟨sub_or_right S T1 T2, sub_or_left S1 S2 T h⟩

/-- Witness for C5's amended theorem at concrete types: `S = Integer`,
`T1 = Bool`, `T2 = Integer`, `S1 = Integer`, `S2 = Bool`, `T = Char`. -/
theorem C5_union_subtyping_amended_witness :
    (Ty.Primitive Primitives.Char).isUnion = false ∧
    ((Ty.is_subtype_of (Ty.Primitive Primitives.Integer)
        (Ty.Algebraic (Algebraic.Or (Ty.Primitive Primitives.Bool)
          (Ty.Primitive Primitives.Integer))) =
      (decide ((Ty.Primitive Primitives.Integer) =
          Ty.Algebraic (Algebraic.Or (Ty.Primitive Primitives.Bool)
            (Ty.Primitive Primitives.Integer))) ||
        Ty.is_subtype_of (Ty.Primitive Primitives.Integer)
          (Ty.Primitive Primitives.Bool) ||
        Ty.is_subtype_of (Ty.Primitive Primitives.Integer)
          (Ty.Primitive Primitives.Integer)))
    ∧ (Ty.is_subtype_of
        (Ty.Algebraic (Algebraic.Or (Ty.Primitive Primitives.Integer)
          (Ty.Primitive Primitives.Bool)))
        (Ty.Primitive Primitives.Char) =
      (Ty.is_subtype_of (Ty.Primitive Primitives.Integer)
          (Ty.Primitive Primitives.Char) &&
        Ty.is_subtype_of (Ty.Primitive Primitives.Bool)
          (Ty.Primitive Primitives.Char)))) :=
  ⟨by decide,
   C5_union_subtyping_amended (Ty.Primitive Primitives.Integer)
     (Ty.Primitive Primitives.Bool) (Ty.Primitive Primitives.Integer)
     (Ty.Primitive Primitives.Integer) (Ty.Primitive Primitives.Bool)
     (Ty.Primitive Primitives.Char) (by decide)⟩

/-! ## AST (`src/frontend/ast.rs`) and static values (`src/runtime/value.rs`) -/

/-- `StaticValue` from `src/runtime/value.rs`: the compile-time-constructible
subset of `Value`.  The `f64` payload (`OrderedFloat<f64>`) is modelled by
`Rat`; see the header note on floats. -/
inductive StaticValue where
  | Null
  | Integer (i : Int)
  | Float (f : Rat)
  | Char (c : Char)
  | Bool (b : Bool)
  | String (s : String)
deriving DecidableEq, Repr

/-- Modelled from the spec: `src/frontend/tokenizer.rs` is declared in
`src/frontend/mod.rs` but absent from the sources.  Its `TokenLiteral` type is
reconstructed from the exhaustive matches over it in
`src/compiler/compile.rs` (`TokenLiteral::Identifier(ident)`,
`TokenLiteral::Value(v)` with `v : StaticValue`) and
`src/compiler/typecheck.rs`, matching the spec's "Literals push a constant or
resolve a local variable by name". -/
inductive TokenLiteral where
  | Identifier (s : String)
  | Value (v : StaticValue)
deriving DecidableEq, Repr

/-- `BinOpCode` from `src/frontend/ast.rs`. -/
inductive BinOpCode where
  | ADD | SUB | MULT | DIV | MOD | AND | OR | XOR
  | LT | LE | GT | GE | EQ | NE
deriving DecidableEq, Repr

/-- `UnaryOpCode` from `src/frontend/ast.rs`. -/
inductive UnaryOpCode where
  | NEG | NOT
deriving DecidableEq, Repr

/-- `Expression` from `src/frontend/ast.rs`. -/
inductive Expression where
  | Literal (l : TokenLiteral)
  | Unary (op : UnaryOpCode) (e : Expression)
  | Binary (op : BinOpCode) (lhs rhs : Expression)
  | Grouping (e : Expression)
  | Call (func : String) (args : List Expression)
  | Get (member : String) (base : Expression)
  | Instance (t : Ty) (args : List Expression)

/-- `Statement` from `src/frontend/ast.rs`.  The first component of `Set`
(the optional target expression, named `on` in the source) is bound as
`on_` because `on` is reserved in Lean. -/
inductive Statement where
  | Declare (name : String) (t : Ty) (e : Expression)
  | Set (on_ : Option Expression) (name : String) (e : Expression)
  | Expression (e : Expression)
  | Print (e : Expression)
  | Return (e : Option Expression)
  | If (cond : Expression) (thenBlock : List Statement)
      (elseBlock : Option (List Statement))
  | For (init : Statement) (cond : Expression) (incr : Statement)
      (body : Option (List Statement))
  | Null

/-- `Parameter` from `src/frontend/ast.rs`. -/
structure Parameter where
  name : String
  ty : Ty
deriving DecidableEq, Repr

/-- `Function` from `src/frontend/ast.rs`. -/
structure Function where
  name : String
  params : List Parameter
  return_type : Ty
  body : List Statement

/-- `Class` from `src/frontend/ast.rs`.  The `variables` field is named
`variables_` because `variables` is reserved in Lean. -/
structure Class where
  name : String
  variables_ : List (String × Ty × StaticValue)
  functions : List Function

/-- `Item` from `src/frontend/ast.rs`. -/
inductive Item where
  | Class (c : Class)
  | Function (f : Function)

/-! ## Bytecode instruction set -/

/-- Modelled from the spec: `src/compiler/bytecode.rs` is declared in
`src/compiler/mod.rs` but absent from the sources.  The variant list and
payload types are reconstructed from the exhaustive `match` over `ByteCode`
in `src/runtime/vm.rs::next` and the constructor uses in
`src/compiler/compile.rs`, matching the spec's instruction descriptions in
sections 4.3 and 4.5.  `u64`/`i64` payloads become `Nat`/`Int`. -/
inductive ByteCode where
  | PUSH (v : StaticValue)
  | POP
  | ADD
  | SUB
  | MULT
  | DIV
  | JMPTO (label : String)
  | JMPABS (indx : Int)
  | JMPREL (offset : Int)
  | JITA (indx : Int)
  | JITL (label : String)
  | JITR (offset : Int)
  | AND
  | OR
  | XOR
  | NEGATE
  | EQUALS
  | EQGREAT
  | EQLESS
  | GREATER
  | LESSER
  | DUP
  | SAVEVARGLOBAL (name : String)
  | GETVARGLOBAL (name : String)
  | SAVEVARLOCAL (name : String)
  | GETVARLOCAL (name : String)
  | CALL (func : String) (argc : Nat)
  | RET (return_value : Bool)
  | EXIT
  | INSTANCE (t : Ty) (argc : Nat)
  | GETFROMREF
  | SAVETOREF
  | DEFVAR (name : String) (t : Ty)
  | DROPVAR (name : String)
  | CAST (t : Ty)
  | MOD
  | NOT
deriving DecidableEq, Repr

/-! ## Expression compilation (`src/compiler/compile.rs::compile_expression`)

`compile_expression` only appends to `self.bytecode` (it never reads or
writes the label table or the label counter), so it is embedded as the pure
function returning the list of instructions it appends, in order. -/

/-- The operator instruction appended by the `match op` in the
`Expression::Binary` arm of `compile_expression`; the source's trailing
`_ => {}` arm (covering `MOD`, `AND`, `OR`, `XOR`, `NE`) appends nothing. -/
def binaryOpInstr : BinOpCode → List ByteCode
  | BinOpCode.ADD => [ByteCode.ADD]
  | BinOpCode.SUB => [ByteCode.SUB]
  | BinOpCode.DIV => [ByteCode.DIV]
  | BinOpCode.MULT => [ByteCode.MULT]
  | BinOpCode.EQ => [ByteCode.EQUALS]
  | BinOpCode.GE => [ByteCode.EQGREAT]
  | BinOpCode.LE => [ByteCode.EQLESS]
  | BinOpCode.LT => [ByteCode.LESSER]
  | BinOpCode.GT => [ByteCode.GREATER]
  | _ => []

mutual
/-- `compile_expression` from `src/compiler/compile.rs` lines 260-310, as the
list of instructions appended to `self.bytecode`.  Note the `Binary` arm
compiles the right operand before the left, and the `Instance` arm appends
nothing (the source arm is `Expression::Instance(_t, _expressionss) => {}`). -/
def compile_expression : Expression → List ByteCode
  | Expression.Get literal e =>
      compile_expression e ++ [ByteCode.GETVARLOCAL literal, ByteCode.GETFROMREF]
  | Expression.Literal (TokenLiteral.Identifier ident) =>
      [ByteCode.GETVARLOCAL ident]
  | Expression.Literal (TokenLiteral.Value v) => [ByteCode.PUSH v]
  | Expression.Binary op lhs rhs =>
      compile_expression rhs ++ compile_expression lhs ++ binaryOpInstr op
  | Expression.Call func args =>
      compile_expression_list args ++ [ByteCode.CALL func args.length]
  | Expression.Unary UnaryOpCode.NEG e => compile_expression e ++ [ByteCode.NEGATE]
  | Expression.Unary UnaryOpCode.NOT e => compile_expression e ++ [ByteCode.NOT]
  | Expression.Grouping group => compile_expression group
  | Expression.Instance _ _ => []

/-- The `for arg in args { self.compile_expression(arg); }` loop in the
`Expression::Call` arm: arguments are compiled left to right. -/
def compile_expression_list : List Expression → List ByteCode
  | [] => []
  | e :: es => compile_expression e ++ compile_expression_list es
end

/-- C4: refutation of the claim that `Instance(type, args)` compiles to the
argument values followed by `INSTANCE(type, argc)` — `compile_expression`
emits no instructions at all for any construction expression (its match arm
is an empty stub), so no `INSTANCE` instruction and no argument code is ever
produced by it, and no `Ref` is allocated when the compiled expression (an
empty instruction sequence) runs. -/
theorem C4_instance_expression_compiles_to_nothing :
    (∀ (t : Ty) (args : List Expression),
      compile_expression (Expression.Instance t args) = []) ∧
    compile_expression (Expression.Instance
      (Ty.Composite (Composite.Array (Ty.Primitive Primitives.Integer)))
      [Expression.Literal (TokenLiteral.Value (StaticValue.Integer 1))]) = [] :=
  ⟨fun _ _ => rfl, rfl⟩

/-! ## Statement and item compilation (`src/compiler/compile.rs`) -/

/-- `Code` from `src/compiler/compile.rs`: the compiler's output artifact,
an instruction sequence plus the (label-name, instruction-index) list. -/
structure Code where
  bytecode : List ByteCode
  labels : List (String × Nat)
deriving DecidableEq, Repr

/-- The mutable compilation state of `Compiler` from
`src/compiler/compile.rs`: the emitted `bytecode`, the `labels` list and the
fresh-label counter `label_iter` (the `symbol_table` field is filled only
after type checking and plays no role in code emission). -/
structure Compiler where
  bytecode : List ByteCode
  labels : List (String × Nat)
  label_iter : Nat
deriving DecidableEq, Repr

/-- `Compiler::new`. -/
def Compiler.new : Compiler := ⟨[], [], 0⟩

/-- `self.bytecode.push(b)`. -/
def Compiler.emit (c : Compiler) (b : ByteCode) : Compiler :=
  { c with bytecode := c.bytecode ++ [b] }

/-- Appending a whole compiled fragment to `self.bytecode`. -/
def Compiler.emits (c : Compiler) (bs : List ByteCode) : Compiler :=
  { c with bytecode := c.bytecode ++ bs }

/-- `self.labels.push((name, idx))`. -/
def Compiler.pushLabel (c : Compiler) (name : String) (idx : Nat) : Compiler :=
  { c with labels := c.labels ++ [(name, idx)] }

/-- `impl From<Compiler> for Code`. -/
def Code.ofCompiler (c : Compiler) : Code := ⟨c.bytecode, c.labels⟩

/-- `Compiler::get_next_label`: returns `_<label_iter>` and increments the
counter. -/
def Compiler.get_next_label (c : Compiler) : String × Compiler :=
  ("_" ++ toString c.label_iter, { c with label_iter := c.label_iter + 1 })

/-- Every expression has positive size (used for termination of the
statement compiler). -/
lemma Expression.sizeOf_pos (e : Expression) : 0 < sizeOf e := by
  cases e <;> simp_arith

mutual
/-- `Compiler::compile_statement` from `src/compiler/compile.rs` lines
192-258.  Returns the updated state and the variable names the statement
appended to its `out` vector (`Declare` reports its name; `For` forwards the
names of its increment statement; every other arm reports nothing). -/
def compile_statement (c : Compiler) : Statement → Compiler × List String
  | Statement.Declare name typedata expr =>
      let c := c.emits (compile_expression expr)
      let c := c.emit (ByteCode.DEFVAR name typedata)
      (c, [name])
  | Statement.If expr block els =>
      let c := c.emits (compile_expression expr)
      let c := c.emit ByteCode.NEGATE
      let (lbl, c) := c.get_next_label
      let c := c.emit (ByteCode.JITL lbl)
      let c := compile_body_drop c block
      match els with
      | none => (c.pushLabel lbl c.bytecode.length, [])
      | some elseBlock =>
          let c := c.pushLabel lbl (c.bytecode.length + 1)
          let (lbl2, c) := c.get_next_label
          let c := c.emit (ByteCode.JMPTO lbl2)
          let c := compile_body_drop c elseBlock
          (c.pushLabel lbl2 c.bytecode.length, [])
  | Statement.For stmt expr stmt2 body =>
      let (c, vars) := compile_statement c stmt
      let idx := c.bytecode.length
      let c := c.emits (compile_expression expr)
      let c := c.emit ByteCode.NEGATE
      let (lbl1, c) := c.get_next_label
      let c := c.emit (ByteCode.JITL lbl1)
      let (c, vars) :=
        match body with
        | some b =>
            let (c, extra) := compile_body_collect c b
            (c, vars ++ extra)
        | none => (c, vars)
      let (c, out) := compile_statement c stmt2
      let (lbl2, c) := c.get_next_label
      let c := c.emit (ByteCode.JMPTO lbl2)
      let c := c.pushLabel lbl1 c.bytecode.length
      let c := vars.foldl (fun c v => c.emit (ByteCode.DROPVAR v)) c
      (c.pushLabel lbl2 idx, out)
  | Statement.Return op_expr =>
      match op_expr with
      | some e => ((c.emits (compile_expression e)).emit (ByteCode.RET true), [])
      | none => (c.emit (ByteCode.RET false), [])
  | Statement.Set _ var expr =>
      ((c.emits (compile_expression expr)).emit (ByteCode.SAVEVARLOCAL var), [])
  | Statement.Expression expr => (c.emits (compile_expression expr), [])
  | Statement.Print expr => (c.emits (compile_expression expr), [])
  | Statement.Null => (c, [])
termination_by s => sizeOf s
decreasing_by
  all_goals
    (simp_wf;
      first
      | omega
      | (have hpos := Expression.sizeOf_pos expr; omega))

/-- The statement loop of `Compiler::compile_body`: compiles each statement
and accumulates the names each one reported (the `vars_to_drop.extend(ret)`
in the source). -/
def compile_body_collect (c : Compiler) : List Statement → Compiler × List String
  | [] => (c, [])
  | stmt :: rest =>
      let (c, ret) := compile_statement c stmt
      let (c, acc) := compile_body_collect c rest
      (c, ret ++ acc)
termination_by ss => sizeOf ss

/-- `Compiler::compile_body` called with `None` (the block owns its scope):
after the statement loop it emits one `DROPVAR` per collected name. -/
def compile_body_drop (c : Compiler) (stmts : List Statement) : Compiler :=
  let (c, vars) := compile_body_collect c stmts
  vars.foldl (fun c v => c.emit (ByteCode.DROPVAR v)) c
termination_by sizeOf stmts + 1
end

/-- `Compiler::compile_from_ast` from `src/compiler/compile.rs` lines
101-134: the `_start` label, the bootstrap `CALL "main"` / `EXIT` pair, then
each function (and each class method) preceded by its label, its parameters
pre-loaded as `DEFVAR`s in reverse order, and its body compiled with a
caller-supplied (and immediately discarded) drop list, so no `DROPVAR`s are
appended at a function's end. -/
def compile_from_ast (c : Compiler) (ast : List Item) : Compiler :=
  let c := c.pushLabel "_start" 0
  let c := c.emit (ByteCode.CALL "main" 0)
  let c := c.emit ByteCode.EXIT
  ast.foldl
    (fun c item =>
      match item with
      | Item.Function func =>
          let c := c.pushLabel func.name c.bytecode.length
          let c := func.params.reverse.foldl
            (fun c arg => c.emit (ByteCode.DEFVAR arg.name arg.ty)) c
          (compile_body_collect c func.body).1
      | Item.Class cls =>
          cls.functions.foldl
            (fun c f =>
              let c := c.pushLabel (cls.name ++ "::" ++ f.name) c.bytecode.length
              let c := f.params.reverse.foldl
                (fun c arg => c.emit (ByteCode.DEFVAR arg.name arg.ty)) c
              (compile_body_collect c f.body).1)
            c)
    c

/-! ## C9: the dropped binary operators and the never-emitted opcodes -/


def isUnemittedOpcode : ByteCode → Bool
  | ByteCode.MOD => true
  | ByteCode.AND => true
  | ByteCode.OR => true
  | ByteCode.XOR => true
  | _ => false

def cleanCode (bs : List ByteCode) : Bool := bs.all (fun b => !isUnemittedOpcode b)

lemma cleanCode_nil : cleanCode [] = true := rfl

lemma cleanCode_append (a b : List ByteCode) :
    cleanCode (a ++ b) = (cleanCode a && cleanCode b) := by
  simp [cleanCode]

lemma cleanCode_singleton (b : ByteCode) :
    cleanCode [b] = !isUnemittedOpcode b := by
  simp [cleanCode]

lemma cleanCode_cons (b : ByteCode) (bs : List ByteCode) :
    cleanCode (b :: bs) = (!isUnemittedOpcode b && cleanCode bs) := by
  simp [cleanCode]

lemma binaryOpInstr_clean (op : BinOpCode) : cleanCode (binaryOpInstr op) = true := by
  cases op <;> simp [binaryOpInstr, cleanCode, isUnemittedOpcode]

mutual
theorem compile_expression_clean (e : Expression) :
    cleanCode (compile_expression e) = true := by
  cases e with
  | Literal l => cases l <;> simp [compile_expression, cleanCode, isUnemittedOpcode]
  | Unary op e =>
      cases op <;>
        simp [compile_expression, cleanCode_append, cleanCode_singleton,
          compile_expression_clean e, isUnemittedOpcode]
  | Binary op l r =>
      simp [compile_expression, cleanCode_append, compile_expression_clean l,
        compile_expression_clean r, binaryOpInstr_clean]
  | Grouping g => simpa [compile_expression] using compile_expression_clean g
  | Call f args =>
      simp [compile_expression, cleanCode_append, cleanCode_singleton,
        compile_expression_list_clean args, isUnemittedOpcode]
  | Get m b =>
      simp [compile_expression, cleanCode_append, cleanCode_cons, cleanCode_nil,
        compile_expression_clean b, isUnemittedOpcode]
  | Instance t args => simp [compile_expression, cleanCode]

theorem compile_expression_list_clean (es : List Expression) :
    cleanCode (compile_expression_list es) = true := by
  cases es with
  | nil => simp [compile_expression_list, cleanCode]
  | cons e es =>
      simp [compile_expression_list, cleanCode_append, compile_expression_clean e,
        compile_expression_list_clean es]
end


lemma clean_emit (c : Compiler) (b : ByteCode) (h : cleanCode c.bytecode = true)
    (hb : isUnemittedOpcode b = false) : cleanCode (c.emit b).bytecode = true := by
  simp [Compiler.emit, cleanCode_append, cleanCode_singleton, h, hb]

lemma clean_emits (c : Compiler) (bs : List ByteCode)
    (h : cleanCode c.bytecode = true) (hbs : cleanCode bs = true) :
    cleanCode (c.emits bs).bytecode = true := by
  simp [Compiler.emits, cleanCode_append, h, hbs]

lemma clean_dropfold (vars : List String) (c : Compiler)
    (h : cleanCode c.bytecode = true) :
    cleanCode ((vars.foldl (fun c v => c.emit (ByteCode.DROPVAR v)) c).bytecode) = true := by
  induction vars generalizing c with
  | nil => simpa using h
  | cons v vs ih => exact ih _ (clean_emit c (ByteCode.DROPVAR v) h rfl)

lemma clean_cond_prefix (c : Compiler) (e : Expression) (lbl : String)
    (h : cleanCode c.bytecode = true) :
    cleanCode (((c.emits (compile_expression e)).emit ByteCode.NEGATE).emit
      (ByteCode.JITL lbl)).bytecode = true :=
  clean_emit _ _ (clean_emit _ _ (clean_emits c _ h (compile_expression_clean e)) rfl) rfl

lemma statement_sizeOf_pos (s : Statement) : 0 < sizeOf s := by
  cases s <;> simp_arith

lemma list_sizeOf_pos {m : Type} [SizeOf m] (l : List m) : 0 < sizeOf l := by
  cases l <;> simp_arith

lemma option_sizeOf_pos {m : Type} [SizeOf m] (o : Option m) : 0 < sizeOf o := by
  cases o <;> simp_arith

mutual
theorem compile_statement_clean (c : Compiler) (s : Statement)
    (h : cleanCode c.bytecode = true) :
    cleanCode ((compile_statement c s).1.bytecode) = true := by
  cases s with
  | Declare name t e =>
      simp only [compile_statement]
      exact clean_emit _ _ (clean_emits c _ h (compile_expression_clean e)) rfl
  | If expr block els =>
      cases els with
      | none =>
          simp only [compile_statement, Compiler.get_next_label, Compiler.pushLabel]
          exact compile_body_drop_clean _ block
            (clean_emit _ _ (clean_emit _ _
              (clean_emits _ _ h (compile_expression_clean expr)) rfl) rfl)
      | some elseBlock =>
          simp only [compile_statement, Compiler.get_next_label, Compiler.pushLabel]
          exact compile_body_drop_clean _ elseBlock
            (clean_emit _ _ (compile_body_drop_clean _ block
              (clean_emit _ _ (clean_emit _ _
                (clean_emits _ _ h (compile_expression_clean expr)) rfl) rfl)) rfl)
  | For stmt expr stmt2 body =>
      cases body with
      | none =>
          simp only [compile_statement, Compiler.get_next_label, Compiler.pushLabel]
          exact clean_dropfold _ _ (clean_emit _ _
            (compile_statement_clean _ stmt2
              (clean_emit _ _ (clean_emit _ _
                (clean_emits _ _ (compile_statement_clean c stmt h)
                  (compile_expression_clean expr)) rfl) rfl)) rfl)
      | some b =>
          simp only [compile_statement, Compiler.get_next_label, Compiler.pushLabel]
          exact clean_dropfold _ _ (clean_emit _ _
            (compile_statement_clean _ stmt2
              (compile_body_collect_clean _ b
                (clean_emit _ _ (clean_emit _ _
                  (clean_emits _ _ (compile_statement_clean c stmt h)
                    (compile_expression_clean expr)) rfl) rfl))) rfl)
  | Return op_expr =>
      cases op_expr with
      | none =>
          simp only [compile_statement]
          exact clean_emit c _ h rfl
      | some e =>
          simp only [compile_statement]
          exact clean_emit _ _ (clean_emits c _ h (compile_expression_clean e)) rfl
  | Set on_ name e =>
      simp only [compile_statement]
      exact clean_emit _ _ (clean_emits c _ h (compile_expression_clean e)) rfl
  | Expression e =>
      simp only [compile_statement]
      exact clean_emits c _ h (compile_expression_clean e)
  | Print e =>
      simp only [compile_statement]
      exact clean_emits c _ h (compile_expression_clean e)
  | Null => simpa [compile_statement] using h
termination_by sizeOf s
decreasing_by
  all_goals simp_wf
  all_goals omega

theorem compile_body_collect_clean (c : Compiler) (ss : List Statement)
    (h : cleanCode c.bytecode = true) :
    cleanCode ((compile_body_collect c ss).1.bytecode) = true := by
  cases ss with
  | nil => simpa [compile_body_collect] using h
  | cons s rest =>
      simp only [compile_body_collect]
      exact compile_body_collect_clean _ rest (compile_statement_clean c s h)
termination_by sizeOf ss

theorem compile_body_drop_clean (c : Compiler) (ss : List Statement)
    (h : cleanCode c.bytecode = true) :
    cleanCode ((compile_body_drop c ss).bytecode) = true := by
  simp only [compile_body_drop]
  exact clean_dropfold _ _ (compile_body_collect_clean c ss h)
termination_by sizeOf ss + 1
end


/-- `clean_emit` specialised to the bytecode-preserving `pushLabel`. -/
lemma clean_pushLabel (c : Compiler) (n : String) (i : Nat)
    (h : cleanCode c.bytecode = true) :
    cleanCode ((c.pushLabel n i).bytecode) = true := h

/-- Parameter-prologue `DEFVAR` loop of `compile_from_ast` keeps the bytecode
free of the never-emitted opcodes. -/
lemma clean_defvarfold (ps : List Parameter) (c : Compiler)
    (h : cleanCode c.bytecode = true) :
    cleanCode ((ps.foldl (fun c arg =>
      c.emit (ByteCode.DEFVAR arg.name arg.ty)) c).bytecode) = true := by
  induction ps generalizing c with
  | nil => simpa using h
  | cons p ps ih => exact ih _ (clean_emit c _ h rfl)

/-- A fold whose step preserves cleanliness preserves cleanliness. -/
lemma foldl_clean_preserve {m : Type} (f : Compiler → m → Compiler)
    (hf : ∀ c a, cleanCode c.bytecode = true → cleanCode (f c a).bytecode = true)
    (l : List m) (c : Compiler) (h : cleanCode c.bytecode = true) :
    cleanCode ((l.foldl f c).bytecode) = true := by
  induction l generalizing c with
  | nil => simpa using h
  | cons a l ih => exact ih _ (hf c a h)

/-- `compile_from_ast` never emits `MOD`, `AND`, `OR` or `XOR`. -/
theorem compile_from_ast_clean (c : Compiler) (ast : List Item)
    (h : cleanCode c.bytecode = true) :
    cleanCode ((compile_from_ast c ast).bytecode) = true := by
  simp only [compile_from_ast]
  refine foldl_clean_preserve _ ?_ ast _
    (clean_emit _ _ (clean_emit _ _ (clean_pushLabel c _ _ h) rfl) rfl)
  intro c item hc
  cases item with
  | Function func =>
      exact compile_body_collect_clean _ func.body
        (clean_defvarfold _ _ (clean_pushLabel c _ _ hc))
  | Class cls =>
      refine foldl_clean_preserve _ ?_ cls.functions c hc
      intro c f hcf
      exact compile_body_collect_clean _ f.body
        (clean_defvarfold _ _ (clean_pushLabel c _ _ hcf))

/-- C9: for the binary operators `%`, `&`, `|`, `^` and `!=`,
`compile_expression` emits exactly the instructions of the right operand
followed by those of the left operand and no operator instruction at all
(their values are left on the operand stack); moreover the whole compiler
(`compile_from_ast`, over any AST) never emits the `MOD`, `AND`, `OR` or
`XOR` opcodes that the VM implements. -/
theorem C9_dropped_operators_emit_no_instruction :
    (∀ l r, compile_expression (Expression.Binary BinOpCode.MOD l r) =
        compile_expression r ++ compile_expression l)
    ∧ (∀ l r, compile_expression (Expression.Binary BinOpCode.AND l r) =
        compile_expression r ++ compile_expression l)
    ∧ (∀ l r, compile_expression (Expression.Binary BinOpCode.OR l r) =
        compile_expression r ++ compile_expression l)
    ∧ (∀ l r, compile_expression (Expression.Binary BinOpCode.XOR l r) =
        compile_expression r ++ compile_expression l)
    ∧ (∀ l r, compile_expression (Expression.Binary BinOpCode.NE l r) =
        compile_expression r ++ compile_expression l)
    ∧ (∀ ast, (compile_from_ast Compiler.new ast).bytecode.all
        (fun b => !isUnemittedOpcode b) = true) :=
  ⟨fun l r => by simp [compile_expression, binaryOpInstr],
   fun l r => by simp [compile_expression, binaryOpInstr],
   fun l r => by simp [compile_expression, binaryOpInstr],
   fun l r => by simp [compile_expression, binaryOpInstr],
   fun l r => by simp [compile_expression, binaryOpInstr],
   fun ast => compile_from_ast_clean Compiler.new ast rfl⟩

/-! ## Runtime values and heap objects
(`src/runtime/value.rs`, `src/runtime/object.rs`)

`Ref` in the source is `Rc<Mutex<RefHeader>>`: a shared pointer to the header
holding `deleted`, `uuid` and the object.  The embedding stores the header by
value inside the `Ref`.  This is faithful for every operation the theorems
below exercise (identity, equality, `is_null`, reads); shared-aliasing
*writes* (`SAVETOREF`, `delete`) act on the local copy only and are not
exercised by any theorem. -/

/-- `FunctionSignature` from `src/compiler/typecheck.rs`. -/
structure FunctionSignature where
  name : String
  parameters : List Ty
  return_type : Ty
deriving DecidableEq, Repr

/-- `AbraTypeDefinition` from `src/compiler/typecheck.rs` (the `variables`
field is named `variables_`, see `Class`). -/
structure AbraTypeDefinition where
  name : String
  variables_ : List (String × (Ty × StaticValue))
  functions : List (String × FunctionSignature)
deriving DecidableEq, Repr

mutual
/-- `Value` from `src/runtime/value.rs` (float payload as `Rat`). -/
inductive Value where
  | Null
  | Integer (i : Int)
  | Float (f : Rat)
  | Char (c : Char)
  | Bool (b : Bool)
  | String (s : String)
  | Ref (r : RefV)

/-- `Ref`/`RefHeader` from `src/runtime/object.rs`, merged: the `Ref` handle
with its pointed-to header (`deleted`, `uuid`, `ref_object`) stored by
value. -/
inductive RefV where
  | mk (deleted : Bool) (uuid : Nat) (ref_object : RefObject)

/-- `RefObject` from `src/runtime/object.rs`; the `HashMap<Value, Value>` of
`Map` is an association list. -/
inductive RefObject where
  | Null
  | BoxedValue (v : Value) (t : Ty)
  | Array (t : Ty) (vs : List Value)
  | Map (kt vt : Ty) (entries : List (Value × Value))
  | Abra (o : AbraObject)

/-- `AbraObject` from `src/runtime/object.rs` (the `variables` map is an
association list). -/
inductive AbraObject where
  | mk (abra_type : AbraTypeDefinition) (variables_ : List (String × Value))
end

/-- Aliases for the builtin types, usable inside the `Value` namespace where
`Bool`, `Integer`, `Float`, `Char` and `String` are constructor names. -/
abbrev BoolR := Bool
/-- Alias for the builtin `Int` (see `BoolR`). -/
abbrev IntR := Int
/-- Alias for the builtin `String` (see `BoolR`). -/
abbrev StringR := String

/-- `Ref::get_uuid`. -/
def RefV.get_uuid : RefV → Nat
  | RefV.mk _ u _ => u

/-- `Ref::is_null` (reads the `deleted` flag). -/
def RefV.is_null : RefV → Bool
  | RefV.mk d _ _ => d

/-- `RefV.ref_object` accessor. -/
def RefV.obj : RefV → RefObject
  | RefV.mk _ _ o => o

/-- `impl PartialEq for Ref` from `src/runtime/object.rs` lines 22-28:
compares the two UUIDs and nothing else. -/
def RefV.eq (a b : RefV) : Bool := a.get_uuid == b.get_uuid

/-- `impl PartialEq for Value` from `src/runtime/value.rs` lines 526-539:
`Bool`/`Integer`/`Float`/`Char` pairs compare their payloads; every other
pair — including two `Ref`s — falls into the `(_, _) => false` arm. -/
def Value.eq : Value → Value → BoolR
  | Value.Bool a, Value.Bool b => a == b
  | Value.Integer a, Value.Integer b => a == b
  | Value.Float a, Value.Float b => a == b
  | Value.Char a, Value.Char b => a == b
  | _, _ => false

/-- The body of the `value_implements!` macro from `src/runtime/value.rs`:
matching `Integer`/`Float`/`Char` pairs apply the operation, everything else
yields `Null`.  `Char` arithmetic works on `as u8` casts (modelled with
`% 256` wrapping); `i64` overflow / division-by-zero panics are not
modelled — no theorem below exercises them. -/
def value_binop (fi : Int → Int → Int) (ff : Rat → Rat → Rat)
    (fc : Nat → Nat → Nat) : Value → Value → Value
  | Value.Integer a, Value.Integer b => Value.Integer (fi a b)
  | Value.Float a, Value.Float b => Value.Float (ff a b)
  | Value.Char a, Value.Char b =>
      Value.Char (Char.ofNat (fc (a.toNat % 256) (b.toNat % 256) % 256))
  | _, _ => Value.Null

/-- `impl Add for Value` (`value_implements!(Add, add)`). -/
def Value.add : Value → Value → Value :=
  value_binop (fun a b => a + b) (fun a b => a + b) (fun a b => a + b)

/-- `impl Sub for Value` (`value_implements!(Sub, sub)`). -/
def Value.sub : Value → Value → Value :=
  value_binop (fun a b => a - b) (fun a b => a - b) (fun a b => a - b)

/-- `impl Mul for Value` (`value_implements!(Mul, mul)`). -/
def Value.mul : Value → Value → Value :=
  value_binop (fun a b => a * b) (fun a b => a * b) (fun a b => a * b)

/-- `impl Div for Value` (`value_implements!(Div, div)`). -/
def Value.div : Value → Value → Value :=
  value_binop (fun a b => a / b) (fun a b => a / b) (fun a b => a / b)

/-- `Value::cast_to_bool` from `src/runtime/value.rs` lines 445-455.  Note
the source's quirks are kept: a `Float` is truthy iff it *equals* zero, a
`Char` iff its `u8` cast is zero, and a `Ref` iff it is deleted. -/
def Value.cast_to_bool : Value → Except StringR BoolR
  | Value.Null => Except.error "Null not expected"
  | Value.Bool x => Except.ok x
  | Value.Integer x => Except.ok (x != 0)
  | Value.Float x => Except.ok (x == 0)
  | Value.Char x => Except.ok (x.toNat % 256 == 0)
  | Value.String s => Except.ok (s.length != 0)
  | Value.Ref rf => Except.ok rf.is_null

/-- `Value::expect_int`. -/
def Value.expect_int : Value → Except StringR IntR
  | Value.Integer x => Except.ok x
  | _ => Except.error "expected null"

/-- `Value::expect_bool`. -/
def Value.expect_bool : Value → Except StringR BoolR
  | Value.Bool x => Except.ok x
  | _ => Except.error "expected null"

/-- `Value::expect_ref`. -/
def Value.expect_ref : Value → Except StringR RefV
  | Value.Ref x => Except.ok x
  | _ => Except.error "expected ref"

/-- `RefHeader::get_type` from `src/runtime/object.rs` lines 166-176; the
panic on a tombstoned (`Null`) object is `none`. -/
def RefObject.get_type : RefObject → Option Ty
  | RefObject.Map t1 t2 _ => some (Ty.Composite (Composite.Map t1 t2))
  | RefObject.Array typ _ => some (Ty.Composite (Composite.Array typ))
  | RefObject.Null => none
  | RefObject.BoxedValue _ t => some t
  | RefObject.Abra (AbraObject.mk ty _) => some (Ty.Abra ty.name)

/-- `Ref::get_type`. -/
def RefV.get_type (r : RefV) : Option Ty := r.obj.get_type

/-- `Value::get_type` from `src/runtime/value.rs` lines 426-439 (the `Ref`
arm may panic inside `RefHeader::get_type`, hence `Option`). -/
def Value.get_type : Value → Option Ty
  | Value.Null => some Ty.Null
  | Value.Bool _ => some (Ty.Primitive Primitives.Bool)
  | Value.Char _ => some (Ty.Primitive Primitives.Char)
  | Value.Float _ => some (Ty.Primitive Primitives.Float)
  | Value.Integer _ => some (Ty.Primitive Primitives.Integer)
  | Value.String _ => some (Ty.Primitive Primitives.String)
  | Value.Ref rf => rf.get_type

/-- `impl Into<Value> for StaticValue` from `src/runtime/value.rs`. -/
def StaticValue.toValue : StaticValue → Value
  | StaticValue.String s => Value.String s
  | StaticValue.Null => Value.Null
  | StaticValue.Bool b => Value.Bool b
  | StaticValue.Char c => Value.Char c
  | StaticValue.Integer i => Value.Integer i
  | StaticValue.Float f => Value.Float f

/-! ## Value display, casts, and heap-object access -/

mutual
/-- `impl Display for Value` from `src/runtime/value.rs` lines 507-519.  The
`Float` rendering is a stand-in (`Rat`'s `toString`, not `f64` formatting)
and HashMap iteration order is the association-list order; no theorem
depends on any rendered string. -/
def Value.display : Value → StringR
  | Value.String s => s
  | Value.Null => ""
  | Value.Bool x => toString x
  | Value.Integer x => toString x
  | Value.Float x => toString x
  | Value.Char x => toString x
  | Value.Ref r =>
      match r with
      | RefV.mk _ _ o => RefObject.display o

/-- `impl Display for RefObject` from `src/runtime/object.rs` lines 271-310
(including the source's unbalanced `[` for arrays, which `write!(f, "")`
never closes). -/
def RefObject.display : RefObject → StringR
  | RefObject.Map _ _ entries => "\x7b" ++ display_map_entries entries true ++ "\x7d"
  | RefObject.Null => "null"
  | RefObject.Array _ arr => "[" ++ display_array_items arr true ++ ""
  | RefObject.BoxedValue v _ => "Box(" ++ Value.display v ++ ")"
  | RefObject.Abra (AbraObject.mk t _) => "instance of " ++ t.name

/-- The comma-joined `k: v` loop of the map `Display`. -/
def display_map_entries : List (Value × Value) → Bool → StringR
  | [], _ => ""
  | (k, v) :: rest, first =>
      (if first then "" else ", ") ++ Value.display k ++ ": " ++ Value.display v ++
        display_map_entries rest false

/-- The comma-joined loop of the array `Display`. -/
def display_array_items : List Value → Bool → StringR
  | [], _ => ""
  | v :: rest, first =>
      (if first then "" else ", ") ++ Value.display v ++ display_array_items rest false
end

/-- `f64 as i64` truncation on the `Rat` float stand-in (toward zero). -/
def rat_trunc (q : Rat) : Int := if 0 ≤ q then Int.floor q else Int.ceil q

/-- `Value::cast_to_int` (the `cast_to!(cast_to_int, i64)` macro expansion
from `src/runtime/value.rs`).  The string-parse arm is a stand-in
(`String.toInt?` for Rust's `str::parse::<i64>`); no theorem exercises it. -/
def Value.cast_to_int : Value → Except StringR IntR
  | Value.Bool x => Except.ok (if x then 1 else 0)
  | Value.Char x => Except.ok (x.toNat % 256)
  | Value.Float x => Except.ok (rat_trunc x)
  | Value.Integer x => Except.ok x
  | Value.String x =>
      match x.toInt? with
      | some v => Except.ok v
      | none => Except.error ("Bad cast error! tried to coerce string: " ++ x ++ " to type i64")
  | _ => Except.error "Bad cast! expected primitive"

/-- `Value::cast_to_float` from `src/runtime/value.rs` lines 405-424 (string
parsing is a stand-in accepting integer literals only; unused by the
theorems). -/
def Value.cast_to_float : Value → Except StringR Rat
  | Value.Bool x => Except.ok (if x then 1 else 0)
  | Value.Char x => Except.ok ((x.toNat % 256 : Nat))
  | Value.Float x => Except.ok x
  | Value.Integer x => Except.ok (x : Rat)
  | Value.String x =>
      match x.toInt? with
      | some v => Except.ok (v : Rat)
      | none => Except.error ("Bad cast error! tried to coerce string: " ++ x ++ " to type f64")
  | _ => Except.error "Bad cast! expected primitive"

/-- `Value::cast` from `src/runtime/value.rs` lines 389-403. -/
def Value.cast (v : Value) (to_ : Ty) : Except StringR Value :=
  match to_ with
  | Ty.Primitive p =>
      match p with
      | Primitives.Bool => (v.cast_to_bool).map Value.Bool
      | Primitives.Char => (v.cast_to_int).map (fun i => Value.Char (Char.ofNat ((i % 256).toNat % 256)))
      | Primitives.Integer => (v.cast_to_int).map Value.Integer
      | Primitives.Float => (v.cast_to_float).map Value.Float
      | Primitives.String => Except.ok (Value.String v.display)
  | Ty.Composite _ => Except.error "Cannot cast to a composite type directly."
  | Ty.Abra _ => Except.error "Cannot cast to an Abra type directly."
  | Ty.Null => Except.error "Cannot cast to a null type directly."
  | Ty.Algebraic _ => Except.error "Cannot cast to an algebraic type directly."

/-- The `gt` arm of `impl PartialOrd for Value` (`src/runtime/value.rs`
lines 555-563). -/
def value_gt : Value → Value → BoolR
  | Value.Bool a, Value.Bool b => a > b
  | Value.Integer a, Value.Integer b => a > b
  | Value.Float a, Value.Float b => a > b
  | Value.Char a, Value.Char b => a > b
  | _, _ => false

/-- The `lt` arm of `impl PartialOrd for Value` (`src/runtime/value.rs`
lines 565-573). -/
def value_lt : Value → Value → BoolR
  | Value.Bool a, Value.Bool b => a < b
  | Value.Integer a, Value.Integer b => a < b
  | Value.Float a, Value.Float b => a < b
  | Value.Char a, Value.Char b => a < b
  | _, _ => false

/-- `RefHeader::get` from `src/runtime/object.rs` lines 178-194 (map lookup
uses `Value`'s `PartialEq`; array/map index panics become errors). -/
def RefObject.get (o : RefObject) (at_ : Value) : Except StringR Value :=
  match o with
  | RefObject.Map _ _ entries =>
      match entries.find? (fun kv => Value.eq kv.1 at_) with
      | some kv => Except.ok kv.2
      | none => Except.error "map key not found (panic)"
  | RefObject.Null => Except.error "Cannot dereference null"
  | RefObject.Array _ arr => do
      let index ← at_.expect_int
      if 0 ≤ index ∧ index < arr.length then
        Except.ok (arr.getD index.toNat Value.Null)
      else
        Except.error "array index out of bounds (panic)"
  | RefObject.BoxedValue v _ => Except.ok v
  | RefObject.Abra (AbraObject.mk ty vars) =>
      match at_ with
      | Value.String var_name =>
          match vars.lookup var_name with
          | some v => Except.ok v
          | none => Except.error ("Variable '" ++ var_name ++ "' not found in instance of " ++ ty.name)
      | _ => Except.error "AbraObject access key must be a string variable name"

/-- Replace-or-append insertion into an association list (Rust
`HashMap::insert` / the contains-then-`get_mut`-else-`insert` pattern). -/
def assoc_insert {m : Type} (l : List (String × m)) (k : String) (v : m) :
    List (String × m) :=
  if (l.lookup k).isSome then
    l.map (fun kv => if kv.1 == k then (k, v) else kv)
  else
    l ++ [(k, v)]

/-- `RefHeader::set` from `src/runtime/object.rs` lines 196-222, returning
the updated object. -/
def RefObject.set (o : RefObject) (at_ : Value) (with_ : Value) :
    Except StringR RefObject :=
  match o with
  | RefObject.Map kt vt entries =>
      -- remove a `PartialEq`-equal key if present, then insert
      let entries := entries.filter (fun kv => !(Value.eq kv.1 at_))
      Except.ok (RefObject.Map kt vt (entries ++ [(at_, with_)]))
  | RefObject.Null => Except.error "Cannot dereference null"
  | RefObject.Array t arr => do
      let index ← at_.expect_int
      if 0 ≤ index ∧ index < arr.length then
        Except.ok (RefObject.Array t (arr.set index.toNat with_))
      else
        Except.error "array index out of bounds (panic)"
  | RefObject.BoxedValue _ t => Except.ok (RefObject.BoxedValue with_ t)
  | RefObject.Abra (AbraObject.mk ty vars) =>
      match at_ with
      | Value.String var_name =>
          if (vars.lookup var_name).isSome then
            Except.ok (RefObject.Abra (AbraObject.mk ty (assoc_insert vars var_name with_)))
          else
            Except.error ("Variable '" ++ var_name ++ "' not found in instance of " ++ ty.name)
      | _ => Except.error "AbraObject access key must be a string variable name"

/-! ## The bytecode virtual machine (`src/runtime/vm.rs`) -/

/-- Dynamic failures of the VM run loop.  Each `anyhow!` error and each panic
site in `src/runtime/vm.rs` maps to one constructor. -/
inductive VmErr where
  /-- "Attempted to access stack frames while none are allocated!" —
  both the frame-underflow in `unwind_stack` and the guards in
  `SAVEVARLOCAL`/`GETVARLOCAL`/`DEFVAR`/`DROPVAR`. -/
  | StackFrameMissing
  /-- "Attempted to access an undefined variable!". -/
  | UndefinedVariable
  /-- `self.labels[&label]` / `self.labels[&func]` `HashMap`-index panic:
  a jump or `CALL` target absent from the label table. -/
  | LabelNotFound (label : String)
  /-- `self.stack[..]` slice-index panic (under- or overflow of the
  1028-slot operand stack, including the `usize` wrap of `stack_index - 1`). -/
  | StackIndexOutOfBounds
  /-- `self.bytecode[index]` slice-index panic. -/
  | BytecodeIndexOutOfBounds
  /-- An `expect_*` failure (wrong value kind popped or in a register). -/
  | TypeError (msg : String)
  /-- `Value::cast` / heap-object `get`/`set` failure. -/
  | ValueError (msg : String)
  /-- An error returned by an inbuilt function body. -/
  | InbuiltError (msg : String)
  /-- The overridden `PartialOrd::ge`/`le` of `Value` call themselves
  (`self >= other` inside `ge`), so `EQGREAT`/`EQLESS` never terminate; the
  resulting stack-overflow abort is modelled as this error. -/
  | NonTermination
  /-- `RefHeader::instance_with_initializer` panic (unknown Abra type /
  non-primitive field default). -/
  | InstanceError (msg : String)
deriving DecidableEq, Repr

/-- `StackFrame` from `src/runtime/vm.rs`. -/
structure StackFrame where
  name : Option String
  local_variables : List (String × Value)
  object : Option RefV
  bytecode_return_index : Int
  stack_return_index : Int

/-- `StackFrame::new`. -/
def StackFrame.new (bytecode_ret_index stack_ret_index : Int)
    (name : Option String) : StackFrame :=
  ⟨name, [], none, bytecode_ret_index, stack_ret_index⟩

/-- `ByteCodeMachine` from `src/runtime/vm.rs`.  `registers` is the 16-slot
`[Value; 16]` bank (slot 10 the stack index, slot 11 the bytecode index),
`stack` the 1028-slot `[Value; 1028]`.  The head of `stack_frames` is the
top frame (the last element of the source's `Vec`).  The debug fields are
omitted: every run below is with `debug_mode == false`, where they are
inert.  `uuid_counter` models the process-wide static `COUNTER` of
`RefHeader::instance_with_initializer` as machine state (spec design note). -/
structure ByteCodeMachine where
  bytecode : List ByteCode
  labels : List (String × Nat)
  registers : List Value
  global_variables : List (String × Value)
  stack_frames : List StackFrame
  stack : List Value
  abra_types : List AbraTypeDefinition
  uuid_counter : Nat

namespace ByteCodeMachine

/-- Read register `i`. -/
def reg (m : ByteCodeMachine) (i : Nat) : Value := m.registers.getD i Value.Null

/-- Write register `i`. -/
def setReg (m : ByteCodeMachine) (i : Nat) (v : Value) : ByteCodeMachine :=
  { m with registers := m.registers.set i v }

/-- Label lookup: `code.labels` is collected into a `HashMap`, so a
duplicated name resolves to its last occurrence. -/
def label_lookup (labels : List (String × Nat)) (l : String) : Option Nat :=
  (labels.reverse).lookup l

/-- `ByteCodeMachine::new` from `src/runtime/vm.rs` lines 82-109 (`none`
models the `self.labels["_start"]` panic when `_start` is absent). -/
def new (code : Code) : Option ByteCodeMachine :=
  match label_lookup code.labels "_start" with
  | none => none
  | some start_index => some {
      bytecode := code.bytecode
      labels := code.labels
      registers := (((List.replicate 16 Value.Null).set 11
        (Value.Integer (start_index : Int))).set 10 (Value.Integer 0))
      global_variables := []
      stack_frames := []
      stack := List.replicate 1028 Value.Null
      abra_types := []
      uuid_counter := 0 }

/-- Lift an `expect_*` failure into a `VmErr`. -/
def liftE {m : Type} : Except StringR m → Except VmErr m
  | Except.ok a => Except.ok a
  | Except.error e => Except.error (VmErr.TypeError e)

/-- `ByteCodeMachine::pop_from_stack` from `src/runtime/vm.rs` lines
233-239: reads `stack[stack_index - 1]`, then decrements register 10 via
`Value` subtraction.  The `usize` wrap / slice panic when the index is out
of `[1, 1028]` is `StackIndexOutOfBounds`. -/
def pop_from_stack (m : ByteCodeMachine) : Except VmErr (Value × ByteCodeMachine) := do
  let stack_index ← liftE (m.reg 10).expect_int
  if 1 ≤ stack_index ∧ stack_index ≤ 1028 then
    Except.ok (m.stack.getD (stack_index - 1).toNat Value.Null,
      m.setReg 10 (Value.sub (m.reg 10) (Value.Integer 1)))
  else
    Except.error VmErr.StackIndexOutOfBounds

/-- `ByteCodeMachine::push_to_stack` from `src/runtime/vm.rs` lines 241-247:
writes `stack[stack_index]`, then increments register 10 via `Value`
addition. -/
def push_to_stack (m : ByteCodeMachine) (value : Value) :
    Except VmErr ByteCodeMachine := do
  let stack_index ← liftE (m.reg 10).expect_int
  if 0 ≤ stack_index ∧ stack_index < 1028 then
    Except.ok { m.setReg 10 (Value.add (m.reg 10) (Value.Integer 1)) with
      stack := m.stack.set stack_index.toNat value }
  else
    Except.error VmErr.StackIndexOutOfBounds

/-- Pop `n` values (the `for _ in 0..argc` pop loops of `CALL` and
`INSTANCE`), returning them in pop order. -/
def pop_n (m : ByteCodeMachine) : Nat → Except VmErr (List Value × ByteCodeMachine)
  | 0 => Except.ok ([], m)
  | n + 1 => do
      let (v, m) ← m.pop_from_stack
      let (vs, m) ← pop_n m n
      Except.ok (v :: vs, m)

/-- Zero out the stack slots in `[lo, cur)` (the clearing loop of
`unwind_stack`); an index outside the 1028-slot array panics. -/
def clear_slots (stack : List Value) (lo cur : Int) : Except VmErr (List Value) :=
  (List.range (cur - lo).toNat).foldlM
    (fun st k =>
      let x := lo + (k : Int)
      if 0 ≤ x ∧ x < 1028 then Except.ok (st.set x.toNat Value.Null)
      else Except.error VmErr.StackIndexOutOfBounds)
    stack

/-- `ByteCodeMachine::unwind_stack` from `src/runtime/vm.rs` lines 249-260:
pop the top frame (error if none — the frame-underflow failure), restore
the bytecode index, clear the stack above the saved stack index, restore
the stack index. -/
def unwind_stack (m : ByteCodeMachine) : Except VmErr ByteCodeMachine := do
  match m.stack_frames with
  | [] => Except.error VmErr.StackFrameMissing
  | stack_frame :: rest => do
      let m := m.setReg 11 (Value.Integer stack_frame.bytecode_return_index)
      let current_stack_index ← liftE (m.reg 10).expect_int
      let cleared ← clear_slots m.stack stack_frame.stack_return_index current_stack_index
      let m := { m with stack := cleared, stack_frames := rest }
      Except.ok (m.setReg 10 (Value.Integer stack_frame.stack_return_index))

end ByteCodeMachine

/-- The signatures registered by `generate_inbuilt_function_hashmap` in
`src/runtime/inbuilt.rs`: `print(Null) -> Null`,
`sqrt(Float|Integer) -> Float`, `exp(Float|Integer) -> Float`,
`input() -> String`. -/
def inbuilt_function_signatures : List (String × FunctionSignature) :=
  [("print", ⟨"print", [Ty.Null], Ty.Null⟩),
   ("sqrt", ⟨"sqrt", [Ty.or FLOAT_TYPE INTEGER_TYPE], FLOAT_TYPE⟩),
   ("exp", ⟨"exp", [Ty.or FLOAT_TYPE INTEGER_TYPE], FLOAT_TYPE⟩),
   ("input", ⟨"input", [], STRING_TYPE⟩)]

/-- Whether `name` is an inbuilt function
(`self.inbuilt_functions.contains_key(&func)`). -/
def is_inbuilt (name : String) : Bool :=
  (inbuilt_function_signatures.lookup name).isSome

/-- Stand-in for `f64::sqrt(i as f64) as i64` in the `sqrt` inbuilt: the
truncated integer square root (`Int.sqrt` is `0` on negatives, as is the
`NaN as i64` cast).  Every theorem below that touches `sqrt` depends only on
the `Value::Integer` constructor wrapped around this number, never on the
number itself. -/
def f64_sqrt_as_i64 (i : Int) : Int := Int.sqrt i

/-- Stand-in for `f64::sqrt` on the `Rat` float payload; unused by every
theorem. -/
def f64_sqrt (q : Rat) : Rat := q

/-- Stand-in for `f64::exp(i as f64) as i64`; unused by every theorem. -/
def f64_exp_as_i64 (i : Int) : Int := i

/-- Stand-in for `f64::exp` on the `Rat` float payload; unused by every
theorem. -/
def f64_exp (q : Rat) : Rat := q

namespace ByteCodeMachine

/-- The executable bodies of `generate_inbuilt_function_hashmap` from
`src/runtime/inbuilt.rs` lines 39-106.  `print`'s console output and
`input`'s console read are I/O and not modelled: `print` pops its argument
and `input` pushes nothing (exactly as in the source, which reads no line
and pushes no value). -/
def run_inbuilt (m : ByteCodeMachine) (name : String) (argc : Nat) :
    Except VmErr ByteCodeMachine :=
  match name with
  | "print" =>
      if argc != 1 then
        Except.error (VmErr.InbuiltError "Wrong amount of of arguments for print!")
      else do
        let (_, m) ← m.pop_from_stack
        Except.ok m
  | "sqrt" =>
      if argc != 1 then
        Except.error (VmErr.InbuiltError "Wrong amount of of arguments for print!")
      else do
        let (arg0, m) ← m.pop_from_stack
        match arg0 with
        | Value.Null => Except.error (VmErr.InbuiltError "Wrong type of argument provided: Null")
        | Value.Integer i => m.push_to_stack (Value.Integer (f64_sqrt_as_i64 i))
        | Value.Float f => m.push_to_stack (Value.Float (f64_sqrt f))
        | Value.Char _ => Except.error (VmErr.InbuiltError "Wrong type of argument provided: Char")
        | Value.Bool _ => Except.error (VmErr.InbuiltError "Wrong type of argument provided: Bool")
        | Value.String _ => Except.error (VmErr.InbuiltError "Wrong type of argument provided: String")
        | Value.Ref _ => Except.error (VmErr.InbuiltError "Wrong type of argument provided: Ref")
  | "exp" =>
      if argc != 1 then
        Except.error (VmErr.InbuiltError "Wrong amount of of arguments for print!")
      else do
        let (arg0, m) ← m.pop_from_stack
        match arg0 with
        | Value.Null => Except.error (VmErr.InbuiltError "Wrong type of argument provided: Null")
        | Value.Integer i => m.push_to_stack (Value.Integer (f64_exp_as_i64 i))
        | Value.Float f => m.push_to_stack (Value.Float (f64_exp f))
        | Value.Char _ => Except.error (VmErr.InbuiltError "Wrong type of argument provided: Char")
        | Value.Bool _ => Except.error (VmErr.InbuiltError "Wrong type of argument provided: Bool")
        | Value.String _ => Except.error (VmErr.InbuiltError "Wrong type of argument provided: String")
        | Value.Ref _ => Except.error (VmErr.InbuiltError "Wrong type of argument provided: Ref")
  | "input" =>
      if argc != 0 then
        Except.error (VmErr.InbuiltError "Wrong amount of of arguments for print!")
      else
        Except.ok m
  | _ => Except.error (VmErr.InbuiltError ("unknown inbuilt: " ++ name))

end ByteCodeMachine

/-- `impl From<Type> for Value` from `src/runtime/value.rs` lines 352-368:
primitive defaults; the panics on composite/Abra/algebraic types are
`none`. -/
def value_from_type : Ty → Option Value
  | Ty.Primitive p =>
      some (match p with
        | Primitives.String => Value.String ""
        | Primitives.Integer => Value.Integer 0
        | Primitives.Float => Value.Float 0
        | Primitives.Bool => Value.Bool false
        | Primitives.Char => Value.Char (Char.ofNat 0))
  | Ty.Null => some Value.Null
  | _ => none

/-- `args.chunks_exact(2)` pairing for map initialisation (a trailing odd
argument is dropped, as in the source, which only warns). -/
def chunks2 : List Value → List (Value × Value)
  | a :: b :: rest => (a, b) :: chunks2 rest
  | _ => []

/-- `AbraObject::new` from `src/runtime/object.rs` lines 318-332: constructor
arguments are ignored (source TODO); each field gets `Value::from` of its
declared type, which panics (`none`) on non-primitive field types. -/
def AbraObject.new (abra_type : AbraTypeDefinition) (_args : List Value) :
    Option AbraObject :=
  (abra_type.variables_.mapM
      (fun nv => (value_from_type nv.2.1).map (fun v => (nv.1, v)))).map
    (AbraObject.mk abra_type)

/-- The `ref_object` selection of `RefHeader::instance_with_initializer`
from `src/runtime/object.rs` lines 97-144. -/
def instance_ref_object (typ : Ty) (args : List Value)
    (type_tree : List AbraTypeDefinition) : Except VmErr RefObject :=
  match typ with
  | Ty.Primitive _ =>
      Except.ok (RefObject.BoxedValue (args.headD Value.Null) typ)
  | Ty.Composite c =>
      match c with
      | Composite.Array element_type => Except.ok (RefObject.Array element_type args)
      | Composite.Map key_type value_type =>
          Except.ok (RefObject.Map key_type value_type (chunks2 args))
      | Composite.HeapValue value_type =>
          Except.ok (RefObject.BoxedValue (args.headD Value.Null) value_type)
  | Ty.Algebraic _ => Except.ok RefObject.Null
  | Ty.Abra abra_type_name =>
      match type_tree.find? (fun def_ => def_.name == abra_type_name) with
      | some def_ =>
          match AbraObject.new def_ args with
          | some o => Except.ok (RefObject.Abra o)
          | none => Except.error (VmErr.InstanceError
              "non-primitive field default in Value::from (panic)")
      | none => Except.error (VmErr.InstanceError
          ("Abra type definition not found: " ++ abra_type_name))
  | Ty.Null => Except.ok RefObject.Null

namespace ByteCodeMachine

/-- Lift a value-level (`anyhow`) error into a `VmErr`. -/
def liftV {m : Type} : Except StringR m → Except VmErr m
  | Except.ok a => Except.ok a
  | Except.error e => Except.error (VmErr.ValueError e)

/-- `ByteCodeMachine::instance` from `src/runtime/vm.rs` lines 111-117 plus
the fresh-UUID assignment of `RefHeader::instance_with_initializer` (the
static `COUNTER` is the machine's `uuid_counter`). -/
def instance_ (m : ByteCodeMachine) (typ : Ty) (values : List Value) :
    Except VmErr (RefV × ByteCodeMachine) := do
  let obj ← instance_ref_object typ values m.abra_types
  Except.ok (RefV.mk false m.uuid_counter obj,
    { m with uuid_counter := m.uuid_counter + 1 })

/-- `ByteCodeMachine::next` from `src/runtime/vm.rs` lines 266-575: fetch
the instruction at register 11 and execute it.  `Ok true` means "keep
running" (the run loop then advances register 11), `Ok false` is `EXIT`.
Notable translated details:
* `SUB` pops into `b` *first* and `a` second and pushes `a - b`, unlike
  `ADD`/`MULT`/`DIV` which pop `a` first — so `SUB` computes
  (second pop) − (first pop) = right-operand − left-operand;
* `AND`/`OR` short-circuit the second `cast_to_bool` exactly as `&&`/`||`
  do in the source;
* `EQGREAT`/`EQLESS` call `Value`'s overridden `ge`/`le`, which recurse
  into themselves (`self >= other` inside `ge`), modelled as
  `NonTermination`;
* `CALL` pops and *discards* `argc` argument values before pushing the new
  frame;
* `SAVETOREF`'s write-back travels through the shared `Rc` in the source;
  with by-value refs the updated object is discarded (no theorem below
  executes `SAVETOREF`). -/
def next (m : ByteCodeMachine) : Except VmErr (Bool × ByteCodeMachine) := do
  let index ← liftE (m.reg 11).expect_int
  if 0 ≤ index ∧ index < m.bytecode.length then
    match m.bytecode.getD index.toNat ByteCode.EXIT with
    | ByteCode.PUSH v => do
        let m ← m.push_to_stack v.toValue
        Except.ok (true, m)
    | ByteCode.POP => do
        let (_, m) ← m.pop_from_stack
        Except.ok (true, m)
    | ByteCode.ADD => do
        let (a, m) ← m.pop_from_stack
        let (b, m) ← m.pop_from_stack
        let m ← m.push_to_stack (Value.add a b)
        Except.ok (true, m)
    | ByteCode.SUB => do
        let (b, m) ← m.pop_from_stack
        let (a, m) ← m.pop_from_stack
        let m ← m.push_to_stack (Value.sub a b)
        Except.ok (true, m)
    | ByteCode.MULT => do
        let (a, m) ← m.pop_from_stack
        let (b, m) ← m.pop_from_stack
        let m ← m.push_to_stack (Value.mul a b)
        Except.ok (true, m)
    | ByteCode.DIV => do
        let (a, m) ← m.pop_from_stack
        let (b, m) ← m.pop_from_stack
        let m ← m.push_to_stack (Value.div a b)
        Except.ok (true, m)
    | ByteCode.JMPTO label =>
        match label_lookup m.labels label with
        | none => Except.error (VmErr.LabelNotFound label)
        | some idx => Except.ok (true, m.setReg 11 (Value.Integer ((idx : Int) - 1)))
    | ByteCode.JMPABS indx =>
        Except.ok (true, m.setReg 11 (Value.Integer (indx - 1)))
    | ByteCode.JMPREL offset =>
        Except.ok (true, m.setReg 11 (Value.Integer (index + offset - 1)))
    | ByteCode.JITA indx => do
        let (v, m) ← m.pop_from_stack
        let boolean ← liftE v.expect_bool
        if boolean then Except.ok (true, m.setReg 11 (Value.Integer (indx - 1)))
        else Except.ok (true, m)
    | ByteCode.JITL label => do
        let (v, m) ← m.pop_from_stack
        let boolean ← liftE v.expect_bool
        if boolean then
          match label_lookup m.labels label with
          | none => Except.error (VmErr.LabelNotFound label)
          | some idx => Except.ok (true, m.setReg 11 (Value.Integer ((idx : Int) - 1)))
        else Except.ok (true, m)
    | ByteCode.JITR offset => do
        let (v, m) ← m.pop_from_stack
        let boolean ← liftE v.expect_bool
        if boolean then Except.ok (true, m.setReg 11 (Value.Integer (index + offset - 1)))
        else Except.ok (true, m)
    | ByteCode.AND => do
        let (a, m) ← m.pop_from_stack
        let (b, m) ← m.pop_from_stack
        let ab ← liftV a.cast_to_bool
        if ab then do
          let bb ← liftV b.cast_to_bool
          let m ← m.push_to_stack (Value.Bool (ab && bb))
          Except.ok (true, m)
        else do
          let m ← m.push_to_stack (Value.Bool false)
          Except.ok (true, m)
    | ByteCode.OR => do
        let (a, m) ← m.pop_from_stack
        let (b, m) ← m.pop_from_stack
        let ab ← liftV a.cast_to_bool
        if ab then do
          let m ← m.push_to_stack (Value.Bool true)
          Except.ok (true, m)
        else do
          let bb ← liftV b.cast_to_bool
          let m ← m.push_to_stack (Value.Bool (ab || bb))
          Except.ok (true, m)
    | ByteCode.XOR => do
        let (a, m) ← m.pop_from_stack
        let (b, m) ← m.pop_from_stack
        let ab ← liftV a.cast_to_bool
        let bb ← liftV b.cast_to_bool
        let m ← m.push_to_stack (Value.Bool (xor ab bb))
        Except.ok (true, m)
    | ByteCode.NEGATE => do
        let (a, m) ← m.pop_from_stack
        let ab ← liftV a.cast_to_bool
        let m ← m.push_to_stack (Value.Bool (!ab))
        Except.ok (true, m)
    | ByteCode.EQUALS => do
        let (a, m) ← m.pop_from_stack
        let (b, m) ← m.pop_from_stack
        let m ← m.push_to_stack (Value.Bool (Value.eq a b))
        Except.ok (true, m)
    | ByteCode.EQGREAT => do
        let (_, m) ← m.pop_from_stack
        let (_, m) ← m.pop_from_stack
        let _ := m
        Except.error VmErr.NonTermination
    | ByteCode.EQLESS => do
        let (_, m) ← m.pop_from_stack
        let (_, m) ← m.pop_from_stack
        let _ := m
        Except.error VmErr.NonTermination
    | ByteCode.GREATER => do
        let (a, m) ← m.pop_from_stack
        let (b, m) ← m.pop_from_stack
        let m ← m.push_to_stack (Value.Bool (value_gt a b))
        Except.ok (true, m)
    | ByteCode.LESSER => do
        let (a, m) ← m.pop_from_stack
        let (b, m) ← m.pop_from_stack
        let m ← m.push_to_stack (Value.Bool (value_lt a b))
        Except.ok (true, m)
    | ByteCode.DUP => do
        let (a, m) ← m.pop_from_stack
        let m ← m.push_to_stack a
        let m ← m.push_to_stack a
        Except.ok (true, m)
    | ByteCode.SAVEVARGLOBAL name => do
        let (a, m) ← m.pop_from_stack
        Except.ok (true,
          { m with global_variables := assoc_insert m.global_variables name a })
    | ByteCode.GETVARGLOBAL name =>
        match m.global_variables.lookup name with
        | none => Except.error VmErr.UndefinedVariable
        | some value => do
            let m ← m.push_to_stack value
            Except.ok (true, m)
    | ByteCode.SAVEVARLOCAL name =>
        match m.stack_frames with
        | [] => Except.error VmErr.StackFrameMissing
        | f :: rest => do
            let (a, m) ← m.pop_from_stack
            Except.ok (true, { m with stack_frames :=
              { f with local_variables := assoc_insert f.local_variables name a } :: rest })
    | ByteCode.GETVARLOCAL name =>
        match m.stack_frames with
        | [] => Except.error VmErr.StackFrameMissing
        | f :: _ =>
            match f.local_variables.lookup name with
            | none => Except.error VmErr.UndefinedVariable
            | some value => do
                let m ← m.push_to_stack value
                Except.ok (true, m)
    | ByteCode.CALL func argc =>
        if is_inbuilt func then do
          let m ← m.run_inbuilt func argc
          Except.ok (true, m)
        else do
          let (_argv, m) ← m.pop_n argc
          let sri ← liftE (m.reg 10).expect_int
          let m := { m with stack_frames :=
            (StackFrame.new index sri (some func)) :: m.stack_frames }
          match label_lookup m.labels func with
          | none => Except.error (VmErr.LabelNotFound func)
          | some idx => Except.ok (true, m.setReg 11 (Value.Integer ((idx : Int) - 1)))
    | ByteCode.RET return_value =>
        if return_value then do
          let (v, m) ← m.pop_from_stack
          let m ← m.unwind_stack
          let m ← m.push_to_stack v
          Except.ok (true, m)
        else do
          let m ← m.unwind_stack
          Except.ok (true, m)
    | ByteCode.EXIT => Except.ok (false, m)
    | ByteCode.INSTANCE typ argc => do
        let (acc, m) ← m.pop_n argc
        let (rf, m) ← m.instance_ typ acc
        let m ← m.push_to_stack (Value.Ref rf)
        Except.ok (true, m)
    | ByteCode.GETFROMREF => do
        let (v1, m) ← m.pop_from_stack
        let rf ← liftE v1.expect_ref
        let (offset, m) ← m.pop_from_stack
        let value ← liftV (rf.obj.get offset)
        let m ← m.push_to_stack value
        Except.ok (true, m)
    | ByteCode.SAVETOREF => do
        let (value, m) ← m.pop_from_stack
        let (v2, m) ← m.pop_from_stack
        let rf ← liftE v2.expect_ref
        let (offset, m) ← m.pop_from_stack
        let _ ← liftV (rf.obj.set offset value)
        Except.ok (true, m)
    | ByteCode.DEFVAR string_ _t => do
        let (val, m) ← m.pop_from_stack
        match m.stack_frames with
        | [] => Except.error VmErr.StackFrameMissing
        | f :: rest =>
            Except.ok (true, { m with stack_frames :=
              { f with local_variables := assoc_insert f.local_variables string_ val } :: rest })
    | ByteCode.DROPVAR string_ =>
        match m.stack_frames with
        | [] => Except.error VmErr.StackFrameMissing
        | f :: rest =>
            Except.ok (true, { m with stack_frames :=
              { f with local_variables :=
                f.local_variables.filter (fun kv => kv.1 != string_) } :: rest })
    | ByteCode.CAST typ => do
        let (val, m) ← m.pop_from_stack
        let v ← liftV (val.cast typ)
        let m ← m.push_to_stack v
        Except.ok (true, m)
    | ByteCode.MOD => do
        let (a, m) ← m.pop_from_stack
        let (b, m) ← m.pop_from_stack
        let ai ← liftE a.expect_int
        let bi ← liftE b.expect_int
        -- Rust `%` on i64 is the truncated remainder (`Int.tmod`); the
        -- divide-by-zero panic is not modelled (no theorem divides).
        let m ← m.push_to_stack (Value.Integer (ai.tmod bi))
        Except.ok (true, m)
    | ByteCode.NOT => do
        let (val, m) ← m.pop_from_stack
        let b ← liftV val.cast_to_bool
        let m ← m.push_to_stack (Value.Bool (!b))
        Except.ok (true, m)
  else
    Except.error VmErr.BytecodeIndexOutOfBounds

end ByteCodeMachine

/-- The outcome of `ByteCodeMachine::run` (`src/runtime/vm.rs` lines
202-231): `Exited v` is a normal `EXIT` whose popped exit value is `v`
(the source then returns it as the process exit code); `Errored` prints the
error and the call chain and returns 1; `ExitPanic` is the `unwrap` panic
when popping the final value fails.  `OutOfFuel` only signals insufficient
fuel in the embedding. -/
inductive RunResult where
  | Exited (v : Value)
  | Errored (e : VmErr)
  | ExitPanic (e : VmErr)
  | OutOfFuel

/-- `ByteCodeMachine::run`, fuelled: execute `next`, advance register 11 by
one (via `Value` addition) after every non-exiting instruction, stop on
`EXIT` or on the first error.  Debug mode is off in every run below, so the
debug prompt is inert and omitted. -/
def ByteCodeMachine.run (fuel : Nat) (m : ByteCodeMachine) : RunResult :=
  match fuel with
  | 0 => RunResult.OutOfFuel
  | fuel + 1 =>
    match m.next with
    | Except.ok (true, m') =>
        ByteCodeMachine.run fuel
          (m'.setReg 11 (Value.add (m'.reg 11) (Value.Integer 1)))
    | Except.ok (false, m') =>
        match m'.pop_from_stack with
        | Except.ok (v, _) => RunResult.Exited v
        | Except.error e => RunResult.ExitPanic e
    | Except.error e => RunResult.Errored e

/-! ## The type checker (`src/compiler/typecheck.rs`) -/

/-- `impl Display for Primitives`. -/
def Primitives.display : Primitives → StringR
  | Primitives.Integer => "integer"
  | Primitives.Float => "float"
  | Primitives.Char => "char"
  | Primitives.Bool => "bool"
  | Primitives.String => "string"

mutual
/-- `impl Display for Type` from `src/compiler/typecheck.rs`. -/
def Ty.display : Ty → StringR
  | Ty.Primitive p => p.display
  | Ty.Composite c => c.display
  | Ty.Abra a => a
  | Ty.Null => "null"
  | Ty.Algebraic algebraic => "(" ++ algebraic.display ++ ")"

/-- `impl Display for Composite`. -/
def Composite.display : Composite → StringR
  | Composite.Array t => "[" ++ t.display ++ "]"
  | Composite.Map k v => "<" ++ k.display ++ " -> " ++ v.display ++ ">"
  | Composite.HeapValue t => "Box<" ++ t.display ++ ">"

/-- `impl Display for Algebraic`. -/
def Algebraic.display : Algebraic → StringR
  | Algebraic.Or t1 t2 => t1.display ++ " | " ++ t2.display
end

/-- `impl Display for BinOpCode` from `src/frontend/ast.rs`. -/
def BinOpCode.display : BinOpCode → StringR
  | BinOpCode.ADD => "+"
  | BinOpCode.SUB => "-"
  | BinOpCode.MULT => "*"
  | BinOpCode.DIV => "/"
  | BinOpCode.MOD => "%"
  | BinOpCode.AND => "&"
  | BinOpCode.OR => "|"
  | BinOpCode.XOR => "^"
  | BinOpCode.LT => "<"
  | BinOpCode.LE => "<="
  | BinOpCode.GT => ">"
  | BinOpCode.GE => ">="
  | BinOpCode.EQ => "=="
  | BinOpCode.NE => "!="

/-- `TypeCheckerMessage` from `src/compiler/typecheck.rs` (the wrapped
`anyhow::Error` is its message string). -/
inductive TypeCheckerMessage where
  | Error (msg : String)
  | Warning (msg : String)
  | Info (msg : String)
deriving DecidableEq, Repr

/-- Whether a message is an `Error` (the filter of
`compilation_pipepline`). -/
def TypeCheckerMessage.is_error : TypeCheckerMessage → Bool
  | TypeCheckerMessage.Error _ => true
  | _ => false

/-- The mutable state of `TypeChecker` (`messages`, `abra_types`,
`global_functions`); the borrowed AST is passed to `check` explicitly. -/
structure TypeChecker where
  messages : List TypeCheckerMessage
  abra_types : List (String × AbraTypeDefinition)
  global_functions : List (String × FunctionSignature)
deriving DecidableEq, Repr

/-- `TypeChecker::new`: `global_functions` is pre-seeded with the inbuilt
signatures. -/
def TypeChecker.new : TypeChecker :=
  ⟨[], [], inbuilt_function_signatures⟩

/-- A variable scope (`HashMap<String, VariableDefinition>` with
`VariableDefinition = (Type, StaticValue)`). -/
abbrev Scope := List (String × (Ty × StaticValue))

mutual
/-- `TypeChecker::type_eval_expression` from `src/compiler/typecheck.rs`
lines 573-977, returning `(Type, messages)`.  The `Unary` arm reproduces the
source exactly: it accumulates the operand's messages and possibly an
operator-mismatch `Error` into a local vector, then returns
`(result_type, vec![])`, discarding every message it built. -/
def type_eval_expression (t : TypeChecker) (e : Expression)
    (vars_ : Scope) : Ty × List TypeCheckerMessage :=
  match e with
  | Expression.Literal v =>
      match v with
      | TokenLiteral.Identifier i =>
          match vars_.lookup i with
          | some (var_type, _) => (var_type, [])
          | none =>
              (Ty.Null, [TypeCheckerMessage.Error ("Variable " ++ i ++ " not found")])
      | TokenLiteral.Value static_value =>
          (match static_value with
           | StaticValue.Null => Ty.Null
           | StaticValue.Integer _ => Ty.Primitive Primitives.Integer
           | StaticValue.Float _ => Ty.Primitive Primitives.Float
           | StaticValue.Char _ => Ty.Primitive Primitives.Char
           | StaticValue.Bool _ => Ty.Primitive Primitives.Bool
           | StaticValue.String _ => Ty.Primitive Primitives.String, [])
  | Expression.Unary op expr_box =>
      let (operand_type_val, messages) := type_eval_expression t expr_box vars_
      let result_type :=
        match op with
        | UnaryOpCode.NEG =>
            if operand_type_val.is_subtype_of INTEGER_TYPE then
              (INTEGER_TYPE, messages)
            else if operand_type_val.is_subtype_of FLOAT_TYPE then
              (FLOAT_TYPE, messages)
            else
              (Ty.Null, messages ++ [TypeCheckerMessage.Error
                ("Unary '-' operator cannot be applied to type '" ++
                  operand_type_val.display ++ "'")])
        | UnaryOpCode.NOT =>
            if operand_type_val.is_subtype_of BOOL_TYPE then
              (BOOL_TYPE, messages)
            else
              (Ty.Null, messages ++ [TypeCheckerMessage.Error
                ("Unary '!' operator cannot be applied to type '" ++
                  operand_type_val.display ++ "'")])
      -- (result_type, vec![]) — the accumulated messages are dropped here.
      (result_type.1, [])
  | Expression.Binary op lhs_box rhs_box =>
      let (lhs_type_val, messages0) := type_eval_expression t lhs_box vars_
      let (rhs_type_val, rhs_messages) := type_eval_expression t rhs_box vars_
      let messages := messages0 ++ rhs_messages
      let (result_type, messages) :=
        match op with
        | BinOpCode.ADD | BinOpCode.SUB | BinOpCode.MULT | BinOpCode.DIV =>
            match lhs_type_val, rhs_type_val with
            | Ty.Primitive Primitives.Integer, Ty.Primitive Primitives.Integer =>
                (Ty.Primitive Primitives.Integer, messages)
            | Ty.Primitive Primitives.Float, Ty.Primitive Primitives.Float =>
                (Ty.Primitive Primitives.Float, messages)
            | Ty.Primitive Primitives.Integer, Ty.Primitive Primitives.Float =>
                (Ty.Primitive Primitives.Float, messages)
            | Ty.Primitive Primitives.Float, Ty.Primitive Primitives.Integer =>
                (Ty.Primitive Primitives.Float, messages)
            | Ty.Primitive Primitives.String, Ty.Primitive Primitives.String =>
                if op = BinOpCode.ADD then
                  (Ty.Primitive Primitives.String, messages)
                else
                  (Ty.Null, messages ++ [TypeCheckerMessage.Error
                    ("Binary operator '" ++ op.display ++
                      "' cannot be applied to types '" ++ lhs_type_val.display ++
                      "' and '" ++ rhs_type_val.display ++ "'")])
            | _, _ =>
                (Ty.Null, messages ++ [TypeCheckerMessage.Error
                  ("Binary operator '" ++ op.display ++
                    "' cannot be applied to types '" ++ lhs_type_val.display ++
                    "' and '" ++ rhs_type_val.display ++ "'")])
        | BinOpCode.MOD =>
            match lhs_type_val, rhs_type_val with
            | Ty.Primitive Primitives.Integer, Ty.Primitive Primitives.Integer =>
                (Ty.Primitive Primitives.Integer, messages)
            | _, _ =>
                (Ty.Null, messages ++ [TypeCheckerMessage.Error
                  ("Binary operator '%' cannot be applied to types '" ++
                    lhs_type_val.display ++ "' and '" ++ rhs_type_val.display ++ "'")])
        | BinOpCode.AND | BinOpCode.OR | BinOpCode.XOR =>
            match lhs_type_val, rhs_type_val with
            | Ty.Primitive Primitives.Bool, Ty.Primitive Primitives.Bool =>
                (Ty.Primitive Primitives.Bool, messages)
            | _, _ =>
                (Ty.Null, messages ++ [TypeCheckerMessage.Error
                  ("Logical operator '" ++ op.display ++
                    "' cannot be applied to types '" ++ lhs_type_val.display ++
                    "' and '" ++ rhs_type_val.display ++ "'")])
        | BinOpCode.LT | BinOpCode.LE | BinOpCode.GT | BinOpCode.GE =>
            match lhs_type_val, rhs_type_val with
            | Ty.Primitive Primitives.Integer, Ty.Primitive Primitives.Integer =>
                (Ty.Primitive Primitives.Bool, messages)
            | Ty.Primitive Primitives.Float, Ty.Primitive Primitives.Float =>
                (Ty.Primitive Primitives.Bool, messages)
            | Ty.Primitive Primitives.Integer, Ty.Primitive Primitives.Float =>
                (Ty.Primitive Primitives.Bool, messages)
            | Ty.Primitive Primitives.Float, Ty.Primitive Primitives.Integer =>
                (Ty.Primitive Primitives.Bool, messages)
            | Ty.Primitive Primitives.Char, Ty.Primitive Primitives.Char =>
                (Ty.Primitive Primitives.Bool, messages)
            | _, _ =>
                (Ty.Null, messages ++ [TypeCheckerMessage.Error
                  ("Comparison operator '" ++ op.display ++
                    "' cannot be applied to types '" ++ lhs_type_val.display ++
                    "' and '" ++ rhs_type_val.display ++ "'")])
        | BinOpCode.EQ | BinOpCode.NE =>
            match lhs_type_val, rhs_type_val with
            | Ty.Primitive p1, Ty.Primitive p2 =>
                if p1 = p2 then (Ty.Primitive Primitives.Bool, messages)
                else if (p1 = Primitives.Integer ∧ p2 = Primitives.Float) ∨
                    (p1 = Primitives.Float ∧ p2 = Primitives.Integer) then
                  (Ty.Primitive Primitives.Bool, messages)
                else if lhs_type_val.is_subtype_of rhs_type_val ||
                    rhs_type_val.is_subtype_of lhs_type_val then
                  (Ty.Primitive Primitives.Bool, messages)
                else
                  (Ty.Null, messages ++ [TypeCheckerMessage.Warning
                    ("Equality operator '" ++ op.display ++
                      "' may not behave as expected for types '" ++
                      lhs_type_val.display ++ "' and '" ++ rhs_type_val.display ++ "'")])
            | Ty.Abra a1, Ty.Abra a2 =>
                if a1 = a2 then (Ty.Primitive Primitives.Bool, messages)
                else if lhs_type_val.is_subtype_of rhs_type_val ||
                    rhs_type_val.is_subtype_of lhs_type_val then
                  (Ty.Primitive Primitives.Bool, messages)
                else
                  (Ty.Null, messages ++ [TypeCheckerMessage.Warning
                    ("Equality operator '" ++ op.display ++
                      "' may not behave as expected for types '" ++
                      lhs_type_val.display ++ "' and '" ++ rhs_type_val.display ++ "'")])
            | Ty.Null, _ => (Ty.Primitive Primitives.Bool, messages)
            | _, Ty.Null => (Ty.Primitive Primitives.Bool, messages)
            | _, _ =>
                if lhs_type_val.is_subtype_of rhs_type_val ||
                    rhs_type_val.is_subtype_of lhs_type_val then
                  (Ty.Primitive Primitives.Bool, messages)
                else
                  (Ty.Null, messages ++ [TypeCheckerMessage.Warning
                    ("Equality operator '" ++ op.display ++
                      "' may not behave as expected for types '" ++
                      lhs_type_val.display ++ "' and '" ++ rhs_type_val.display ++ "'")])
      (result_type, messages)
  | Expression.Grouping expr_box => type_eval_expression t expr_box vars_
  | Expression.Call func_name arg_exprs_vec =>
      match t.global_functions.lookup func_name with
      | some func_sig =>
          if arg_exprs_vec.length != func_sig.parameters.length then
            (func_sig.return_type, [TypeCheckerMessage.Error
              ("Function '" ++ func_name ++ "' expected " ++
                toString func_sig.parameters.length ++ " arguments, but got " ++
                toString arg_exprs_vec.length)])
          else
            (func_sig.return_type,
              check_call_args t vars_ func_name func_sig.parameters arg_exprs_vec 0)
      | none =>
          (Ty.Null, [TypeCheckerMessage.Error
            ("Global function '" ++ func_name ++ "' not found")])
  | Expression.Get member_name base_expr =>
      let (base_type_val, messages) := type_eval_expression t base_expr vars_
      match base_type_val with
      | Ty.Abra class_name_str =>
          match t.abra_types.lookup class_name_str with
          | some class_def =>
              match class_def.variables_.lookup member_name with
              | some (var_type, _) => (var_type, messages)
              | none =>
                  if (class_def.functions.lookup member_name).isSome then
                    (Ty.Null, messages ++ [TypeCheckerMessage.Error
                      ("Accessing method '" ++ member_name ++ "' on class '" ++
                        class_name_str ++
                        "' as a value is not directly supported. Call it with ().")])
                  else
                    (Ty.Null, messages ++ [TypeCheckerMessage.Error
                      ("Member '" ++ member_name ++ "' not found in class '" ++
                        class_name_str ++ "'")])
          | none =>
              (Ty.Null, messages ++ [TypeCheckerMessage.Error
                ("Class definition '" ++ class_name_str ++ "' not found for access")])
      | Ty.Composite c =>
          match c with
          | Composite.Array _ =>
              if member_name == "length" then
                (Ty.Primitive Primitives.Integer, messages)
              else
                (Ty.Null, messages ++ [TypeCheckerMessage.Error
                  ("Member access '" ++ member_name ++ "' not supported on type '" ++
                    base_type_val.display ++ "'")])
          | Composite.Map _ _ =>
              if member_name == "size" then
                (Ty.Primitive Primitives.Integer, messages)
              else
                (Ty.Null, messages ++ [TypeCheckerMessage.Error
                  ("Member access '" ++ member_name ++ "' not supported on type '" ++
                    base_type_val.display ++ "'")])
          | _ =>
              (Ty.Null, messages ++ [TypeCheckerMessage.Error
                ("Member access '" ++ member_name ++ "' not supported on type '" ++
                  base_type_val.display ++ "'")])
      | Ty.Primitive Primitives.String =>
          if member_name == "length" then
            (Ty.Primitive Primitives.Integer, messages)
          else
            (Ty.Null, messages ++ [TypeCheckerMessage.Error
              ("Cannot access member '" ++ member_name ++ "' on type '" ++
                base_type_val.display ++ "'")])
      | _ =>
          (Ty.Null, messages ++ [TypeCheckerMessage.Error
            ("Cannot access member '" ++ member_name ++ "' on type '" ++
              base_type_val.display ++ "'")])
  | Expression.Instance ty arg_exprs_vec =>
      match ty with
      | Ty.Abra class_name =>
          match t.abra_types.lookup class_name with
          | some class_def =>
              match class_def.functions.lookup "init" with
              | some constructor_sig =>
                  if arg_exprs_vec.length != constructor_sig.parameters.length then
                    (ty, [TypeCheckerMessage.Error
                      ("Constructor for '" ++ class_name ++ "' expected " ++
                        toString constructor_sig.parameters.length ++
                        " arguments, but got " ++ toString arg_exprs_vec.length)])
                  else
                    (ty, check_ctor_args t vars_ class_name
                      constructor_sig.parameters arg_exprs_vec 0)
              | none =>
                  if !arg_exprs_vec.isEmpty then
                    (ty, [TypeCheckerMessage.Error
                      ("Class '" ++ class_name ++
                        "' does not have an 'init' constructor, but arguments were provided.")])
                  else (ty, [])
          | none =>
              (Ty.Null, [TypeCheckerMessage.Error
                ("Cannot instantiate unknown class '" ++ class_name ++ "'")])
      | Ty.Composite c =>
          match c with
          | Composite.Array element_type =>
              (ty, check_array_elems t vars_ element_type arg_exprs_vec)
          | Composite.Map key_type value_type =>
              if arg_exprs_vec.length % 2 != 0 then
                (ty, [TypeCheckerMessage.Error
                  ("Map instantiation requires an even number of arguments (key-value pairs), got "
                    ++ toString arg_exprs_vec.length)])
              else
                (ty, check_map_pairs t vars_ key_type value_type arg_exprs_vec)
          | Composite.HeapValue inner_type =>
              if arg_exprs_vec.length != 1 then
                (ty, [TypeCheckerMessage.Error
                  ("Box (HeapValue) instantiation expects 1 argument, got " ++
                    toString arg_exprs_vec.length)])
              else
                match arg_exprs_vec with
                | [arg] =>
                    let (arg_type_val, arg_eval_messages) :=
                      type_eval_expression t arg vars_
                    if arg_type_val.is_subtype_of inner_type then
                      (ty, arg_eval_messages)
                    else
                      (ty, arg_eval_messages ++ [TypeCheckerMessage.Error
                        ("Box (HeapValue) expected inner type '" ++
                          inner_type.display ++ "', but got '" ++
                          arg_type_val.display ++ "'")])
                | _ => (ty, [])
      | Ty.Algebraic _ =>
          (Ty.Null, [TypeCheckerMessage.Error
            ("Cannot instantiate algebraic type '" ++ ty.display ++ "' using 'new'")])
      | Ty.Primitive _ =>
          (Ty.Null, [TypeCheckerMessage.Error
            ("Cannot instantiate primitive type '" ++ ty.display ++ "' or Null using 'new'")])
      | Ty.Null =>
          (Ty.Null, [TypeCheckerMessage.Error
            ("Cannot instantiate primitive type '" ++ ty.display ++ "' or Null using 'new'")])

/-- The argument loop of the `Call` arm (`for (i, arg_expr) in
arg_exprs_vec.iter().enumerate()`). -/
def check_call_args (t : TypeChecker) (vars_ : Scope) (func_name : String) :
    List Ty → List Expression → Nat → List TypeCheckerMessage
  | p :: ps, a :: as_, i =>
      let (arg_type_val, arg_messages) := type_eval_expression t a vars_
      arg_messages ++
        (if arg_type_val.is_subtype_of p then [] else
          [TypeCheckerMessage.Error
            ("Argument " ++ toString (i + 1) ++ " for function '" ++ func_name ++
              "': expected type '" ++ p.display ++ "', but got '" ++
              arg_type_val.display ++ "'")]) ++
        check_call_args t vars_ func_name ps as_ (i + 1)
  | _, _, _ => []

/-- The argument loop of the Abra-constructor branch of the `Instance`
arm. -/
def check_ctor_args (t : TypeChecker) (vars_ : Scope) (class_name : String) :
    List Ty → List Expression → Nat → List TypeCheckerMessage
  | p :: ps, a :: as_, i =>
      let (arg_type_val, arg_eval_messages) := type_eval_expression t a vars_
      arg_eval_messages ++
        (if arg_type_val.is_subtype_of p then [] else
          [TypeCheckerMessage.Error
            ("Argument " ++ toString (i + 1) ++ " for '" ++ class_name ++
              "' constructor: expected type '" ++ p.display ++ "', but got '" ++
              arg_type_val.display ++ "'")]) ++
        check_ctor_args t vars_ class_name ps as_ (i + 1)
  | _, _, _ => []

/-- The element loop of the Array branch of the `Instance` arm. -/
def check_array_elems (t : TypeChecker) (vars_ : Scope) (element_type : Ty) :
    List Expression → List TypeCheckerMessage
  | [] => []
  | arg :: rest =>
      let (arg_type_val, arg_eval_messages) := type_eval_expression t arg vars_
      arg_eval_messages ++
        (if arg_type_val.is_subtype_of element_type then [] else
          [TypeCheckerMessage.Error
            ("Array element expected type '" ++ element_type.display ++
              "', but got '" ++ arg_type_val.display ++ "'")]) ++
        check_array_elems t vars_ element_type rest

/-- The key/value pair loop (`chunks_exact(2)`) of the Map branch of the
`Instance` arm. -/
def check_map_pairs (t : TypeChecker) (vars_ : Scope) (key_type value_type : Ty) :
    List Expression → List TypeCheckerMessage
  | k :: v :: rest =>
      let (k_actual, k_msgs) := type_eval_expression t k vars_
      let (v_actual, v_msgs) := type_eval_expression t v vars_
      k_msgs ++ v_msgs ++
        (if k_actual.is_subtype_of key_type then [] else
          [TypeCheckerMessage.Error
            ("Map key expected type '" ++ key_type.display ++ "', but got '" ++
              k_actual.display ++ "'")]) ++
        (if v_actual.is_subtype_of value_type then [] else
          [TypeCheckerMessage.Error
            ("Map value expected type '" ++ value_type.display ++ "', but got '" ++
              v_actual.display ++ "'")]) ++
        check_map_pairs t vars_ key_type value_type rest
  | _ => []
end

mutual
/-- One iteration of the statement loop of
`TypeChecker::check_statement_block` from `src/compiler/typecheck.rs` lines
418-571.  Returns the checker (with accumulated messages) and the updated
scope.  The source's `Statement::Set(name, expr)` arm patterns only two of
the variant's three fields (stale arity — it predates the `Set(on, name,
expr)` AST); it is translated positionally, ignoring the `on` target. -/
def check_statement (t : TypeChecker) (stmt : Statement) (scope_vars : Scope)
    (expected_return_type : Option Ty) : TypeChecker × Scope :=
  match stmt with
  | Statement.Declare name declared_type expr =>
      let (expr_type, expr_messages) := type_eval_expression t expr scope_vars
      let t := { t with messages := t.messages ++ expr_messages }
      let t :=
        if !(expr_type.is_subtype_of declared_type) then
          { t with messages := t.messages ++ [TypeCheckerMessage.Error
            ("Type mismatch in declaration of '" ++ name ++ "'. Expected '" ++
              declared_type.display ++ "', found '" ++ expr_type.display ++ "'")] }
        else t
      let existed := (scope_vars.lookup name).isSome
      let scope_vars := assoc_insert scope_vars name (declared_type, StaticValue.Null)
      let t :=
        if existed then
          { t with messages := t.messages ++ [TypeCheckerMessage.Warning
            ("Variable '" ++ name ++ "' shadows a variable in an outer scope.")] }
        else t
      (t, scope_vars)
  | Statement.Set _ name expr =>
      match scope_vars.lookup name with
      | none =>
          ({ t with messages := t.messages ++ [TypeCheckerMessage.Error
            ("Variable '" ++ name ++ "' not found for assignment.")] }, scope_vars)
      | some (expected_var_type, _) =>
          let (expr_type, expr_messages) := type_eval_expression t expr scope_vars
          let t := { t with messages := t.messages ++ expr_messages }
          let t :=
            if !(expr_type.is_subtype_of expected_var_type) then
              { t with messages := t.messages ++ [TypeCheckerMessage.Error
                ("Type mismatch in assignment to '" ++ name ++ "'. Expected '" ++
                  expected_var_type.display ++ "', found '" ++
                  expr_type.display ++ "'")] }
            else t
          (t, scope_vars)
  | Statement.Expression expr =>
      let (_, expr_messages) := type_eval_expression t expr scope_vars
      ({ t with messages := t.messages ++ expr_messages }, scope_vars)
  | Statement.Print expr =>
      let (_, expr_messages) := type_eval_expression t expr scope_vars
      ({ t with messages := t.messages ++ expr_messages }, scope_vars)
  | Statement.Return opt_expr =>
      let (return_expr_type, t) :=
        match opt_expr with
        | some expr =>
            let (ty, expr_messages) := type_eval_expression t expr scope_vars
            (ty, { t with messages := t.messages ++ expr_messages })
        | none => (Ty.Null, t)
      match expected_return_type with
      | some expected_ret_ty =>
          if !(return_expr_type.is_subtype_of expected_ret_ty) then
            ({ t with messages := t.messages ++ [TypeCheckerMessage.Error
              ("Return type mismatch. Expected '" ++ expected_ret_ty.display ++
                "', found '" ++ return_expr_type.display ++ "'")] }, scope_vars)
          else (t, scope_vars)
      | none =>
          ({ t with messages := t.messages ++ [TypeCheckerMessage.Error
            "Return statement outside of a function."] }, scope_vars)
  | Statement.If cond_expr then_block else_opt_block =>
      let (cond_type, cond_messages) := type_eval_expression t cond_expr scope_vars
      let t := { t with messages := t.messages ++ cond_messages }
      let t :=
        if !(cond_type.is_subtype_of BOOL_TYPE) then
          { t with messages := t.messages ++ [TypeCheckerMessage.Error
            ("If condition must be a boolean, found '" ++ cond_type.display ++ "'")] }
        else t
      -- each branch checks in a *cloned* sub-scope; the clone is discarded
      let (t, _) := check_statement_block t then_block scope_vars expected_return_type
      match else_opt_block with
      | some else_block =>
          let (t, _) := check_statement_block t else_block scope_vars expected_return_type
          (t, scope_vars)
      | none => (t, scope_vars)
  | Statement.For init_stmt cond_expr incr_stmt opt_body =>
      -- the whole loop works on a clone (`for_scope`) of the caller's scope
      let (t, for_scope) :=
        check_statement_block t [init_stmt] scope_vars expected_return_type
      let (cond_type, cond_messages) := type_eval_expression t cond_expr for_scope
      let t := { t with messages := t.messages ++ cond_messages }
      let t :=
        if !(cond_type.is_subtype_of BOOL_TYPE) then
          { t with messages := t.messages ++ [TypeCheckerMessage.Error
            ("For loop condition must be a boolean, found '" ++
              cond_type.display ++ "'")] }
        else t
      let t :=
        match opt_body with
        | some body_stmts =>
            (check_statement_block t body_stmts for_scope expected_return_type).1
        | none => t
      let (t, _) := check_statement_block t [incr_stmt] for_scope expected_return_type
      (t, scope_vars)
  | Statement.Null => (t, scope_vars)
termination_by sizeOf stmt
decreasing_by
  all_goals simp_wf
  all_goals
    ((try have h1 := Expression.sizeOf_pos cond_expr);
      (try have h2 := statement_sizeOf_pos incr_stmt);
      (try have h3 := statement_sizeOf_pos init_stmt);
      omega)

/-- The statement loop of `TypeChecker::check_statement_block`. -/
def check_statement_block (t : TypeChecker) (stmts : List Statement)
    (scope_vars : Scope) (expected_return_type : Option Ty) :
    TypeChecker × Scope :=
  match stmts with
  | [] => (t, scope_vars)
  | stmt :: rest =>
      let (t, scope_vars) := check_statement t stmt scope_vars expected_return_type
      check_statement_block t rest scope_vars expected_return_type
termination_by sizeOf stmts
end

/-- Pass 1 of `TypeChecker::check` for one item (collection of class and
function signatures, with duplicate-definition errors). -/
def check_pass1_item (t : TypeChecker) (item : Item) : TypeChecker :=
  match item with
  | Item.Class cls =>
      let ty0 : AbraTypeDefinition := ⟨cls.name, [], []⟩
      let ty1 := { ty0 with variables_ :=
        (cls.variables_.foldl
          (fun acc var => assoc_insert acc var.1 (var.2.1, var.2.2)) ty0.variables_) }
      let (ty2, t) := cls.functions.foldl
        (fun (acc : AbraTypeDefinition × TypeChecker) func =>
          let (ty, t) := acc
          let func_sig : FunctionSignature :=
            ⟨func.name, func.params.map (fun p => p.ty), func.return_type⟩
          let dup := (ty.functions.lookup func.name).isSome
          let ty := { ty with functions := assoc_insert ty.functions func.name func_sig }
          if dup then
            (ty, { t with messages := t.messages ++ [TypeCheckerMessage.Error
              ("Duplicate method definition: '" ++ func.name ++ "' in class '" ++
                cls.name ++ "'")] })
          else (ty, t))
        (ty1, t)
      let dup := (t.abra_types.lookup cls.name).isSome
      let t := { t with abra_types := (assoc_insert t.abra_types cls.name ty2) }
      if dup then
        { t with messages := t.messages ++ [TypeCheckerMessage.Error
          ("Duplicate class definition: " ++ cls.name)] }
      else t
  | Item.Function func =>
      let func_sig : FunctionSignature :=
        ⟨func.name, func.params.map (fun p => p.ty), func.return_type⟩
      let dup := (t.global_functions.lookup func.name).isSome
      let t := { t with global_functions :=
        (assoc_insert t.global_functions func.name func_sig) }
      if dup then
        { t with messages := t.messages ++ [TypeCheckerMessage.Error
          ("Duplicate global function definition: " ++ func.name)] }
      else t

/-- Pass 2 of `TypeChecker::check` for one item (body checking). -/
def check_pass2_item (t : TypeChecker) (item : Item) : TypeChecker :=
  match item with
  | Item.Class cls =>
      match t.abra_types.lookup cls.name with
      | some class_def =>
          cls.functions.foldl
            (fun t func =>
              let (current_scope_vars, t) := func.params.foldl
                (fun (acc : Scope × TypeChecker) param =>
                  let (scope, t) := acc
                  let dup := (scope.lookup param.name).isSome
                  let scope :=
                    assoc_insert scope param.name (param.ty, StaticValue.Null)
                  if dup then
                    (scope, { t with messages := t.messages ++
                      [TypeCheckerMessage.Error
                        ("Parameter '" ++ param.name ++ "' in method '" ++
                          cls.name ++ "::" ++ func.name ++
                          "' shadows a class member.")] })
                  else (scope, t))
                (class_def.variables_, t)
              (check_statement_block t func.body current_scope_vars
                (some func.return_type)).1)
            t
      | none => t
  | Item.Function func =>
      let current_scope_vars : Scope :=
        func.params.foldl
          (fun scope param => assoc_insert scope param.name (param.ty, StaticValue.Null))
          []
      (check_statement_block t func.body current_scope_vars
        (some func.return_type)).1

/-- `TypeChecker::check` from `src/compiler/typecheck.rs` lines 298-416:
pass 1 over all items, then pass 2 over all items. -/
def TypeChecker.check (t : TypeChecker) (ast : List Item) : TypeChecker :=
  let t := ast.foldl check_pass1_item t
  ast.foldl check_pass2_item t

/-- The failure test of `Compiler::compilation_pipepline`
(`src/compiler/compile.rs` lines 74-99): compilation fails iff the checker
recorded at least one `Error` message. -/
def compilation_fails (ast : List Item) : Bool :=
  0 < ((TypeChecker.new.check ast).messages.filter
    (fun f => f.is_error)).length

/-! ## Claim theorems: C1, C2, C3, C7, C8, C10 -/

/-- The expression `5 - 2`. -/
def five_minus_two : Expression :=
  Expression.Binary BinOpCode.SUB
    (Expression.Literal (TokenLiteral.Value (StaticValue.Integer 5)))
    (Expression.Literal (TokenLiteral.Value (StaticValue.Integer 2)))

/-- C1 (refuting the claimed result): the compiler does emit the right
operand before the left and then `SUB`, but the VM's `SUB` pops the *left*
operand into `b` first and the *right* into `a` and pushes `a - b`, so the
compiled `5 - 2` runs to `-3`, not `3`: `Value::sub` of the popped pair is
`2 - 5`. -/
theorem C1_sub_five_minus_two_runs_to_minus_three :
    compile_expression five_minus_two =
      [ByteCode.PUSH (StaticValue.Integer 2), ByteCode.PUSH (StaticValue.Integer 5),
        ByteCode.SUB]
    ∧ (ByteCodeMachine.new
        ⟨compile_expression five_minus_two ++ [ByteCode.EXIT], [("_start", 0)]⟩).map
        (ByteCodeMachine.run 10) = some (RunResult.Exited (Value.Integer (-3)))
    ∧ Value.sub (Value.Integer 2) (Value.Integer 5) = Value.Integer (-3) :=
  ⟨rfl, rfl, rfl⟩

/-- C2 (refutation): the empty program type-checks with zero messages (in
particular zero `Error`s) — the checker never requires a `main` function —
yet the compiled code's bootstrap `CALL "main"` finds no `main` label and
the run aborts with a dynamic label-resolution failure. -/
theorem C2_zero_error_program_hits_missing_main_label :
    (TypeChecker.new.check []).messages = []
    ∧ compilation_fails [] = false
    ∧ Code.ofCompiler (compile_from_ast Compiler.new []) =
        ⟨[ByteCode.CALL "main" 0, ByteCode.EXIT], [("_start", 0)]⟩
    ∧ (ByteCodeMachine.new (Code.ofCompiler (compile_from_ast Compiler.new []))).map
        (ByteCodeMachine.run 10) =
        some (RunResult.Errored (VmErr.LabelNotFound "main")) :=
  ⟨rfl, rfl, rfl, rfl⟩

/-- A machine about to run the `sqrt` inbuilt body on the argument
`Integer 2`: stack slot 0 holds the argument, the stack index (register 10)
is 1. -/
def sqrt_machine : ByteCodeMachine :=
  { bytecode := []
    labels := []
    registers := [Value.Null, Value.Null, Value.Null, Value.Null, Value.Null,
      Value.Null, Value.Null, Value.Null, Value.Null, Value.Null,
      Value.Integer 1, Value.Integer 0, Value.Null, Value.Null, Value.Null,
      Value.Null]
    global_variables := []
    stack_frames := []
    stack := [Value.Integer 2]
    abra_types := []
    uuid_counter := 0 }

/-- C3 (refutation): `sqrt`'s declared signature returns `Float` (which is
what the checker types the call as), but the inbuilt body's `Integer` arm
pushes `Value::Integer(f64::sqrt(i as f64) as i64)` — a value whose runtime
type is `Integer`, not `Float`, and whose payload is truncated.  Run on the
argument `Integer 2`, the pushed value is an `Integer` (the existential
avoids depending on the float stand-in's payload). -/
theorem C3_sqrt_integer_pushes_integer_not_float :
    inbuilt_function_signatures.lookup "sqrt" =
      some ⟨"sqrt", [Ty.or FLOAT_TYPE INTEGER_TYPE], FLOAT_TYPE⟩
    ∧ (∃ (m' : ByteCodeMachine) (k : Int) (rest : ByteCodeMachine),
        sqrt_machine.run_inbuilt "sqrt" 1 = Except.ok m' ∧
        m'.pop_from_stack = Except.ok (Value.Integer k, rest))
    ∧ (∀ k : Int, (Value.Integer k).get_type = some INTEGER_TYPE)
    ∧ INTEGER_TYPE ≠ FLOAT_TYPE :=
  ⟨rfl, ⟨_, _, _, rfl, rfl⟩, fun _ => rfl, by decide⟩

/-- A program whose `main` applies unary `!` to the Integer literal `1` —
an operand-type mismatch for `!` — and then returns `0`. -/
def c7_program : List Item :=
  [Item.Function ⟨"main", [], INTEGER_TYPE,
    [Statement.Expression (Expression.Unary UnaryOpCode.NOT
       (Expression.Literal (TokenLiteral.Value (StaticValue.Integer 1)))),
     Statement.Return (some (Expression.Literal (TokenLiteral.Value (StaticValue.Integer 0))))]⟩]

/-- C7 (refutation): type-checking a program that applies `!` to an Integer
records *no* message at all — the `Unary` arm of `type_eval_expression`
builds the mismatch `Error` and then returns `(result_type, vec![])`,
discarding it — so compilation succeeds.  The error-recovery type `Null` is
produced as the claim says, but with an empty message list. -/
theorem C7_unary_mismatch_records_no_error :
    (TypeChecker.new.check c7_program).messages = []
    ∧ compilation_fails c7_program = false
    ∧ type_eval_expression TypeChecker.new
        (Expression.Unary UnaryOpCode.NOT
          (Expression.Literal (TokenLiteral.Value (StaticValue.Integer 1)))) [] =
        (Ty.Null, []) := by
  refine ⟨?_, ?_, ?_⟩
  · simp [TypeChecker.check, check_pass1_item, check_pass2_item,
      check_statement_block, check_statement, type_eval_expression,
      TypeChecker.new, inbuilt_function_signatures, c7_program,
      Ty.is_subtype_of, assoc_insert, INTEGER_TYPE, BOOL_TYPE, FLOAT_TYPE]
  · simp [compilation_fails, TypeChecker.check, check_pass1_item,
      check_pass2_item, check_statement_block, check_statement,
      type_eval_expression, TypeChecker.new, inbuilt_function_signatures,
      c7_program, Ty.is_subtype_of, assoc_insert, INTEGER_TYPE, BOOL_TYPE,
      FLOAT_TYPE]
  · simp [type_eval_expression, TypeChecker.new, Ty.is_subtype_of,
      INTEGER_TYPE, BOOL_TYPE, FLOAT_TYPE]

/-- Two refs with the *same* UUID (7) but different boxed contents: models
two clones of one heap handle (clones of a `Ref` share the header and hence
the UUID). -/
def r_same_uuid (content : Int) : RefV :=
  RefV.mk false 7 (RefObject.BoxedValue (Value.Integer content) INTEGER_TYPE)

/-- A machine about to execute `EQUALS` on two `Ref` operands with equal
UUIDs. -/
def equals_machine : ByteCodeMachine :=
  { bytecode := [ByteCode.EQUALS, ByteCode.EXIT]
    labels := []
    registers := [Value.Null, Value.Null, Value.Null, Value.Null, Value.Null,
      Value.Null, Value.Null, Value.Null, Value.Null, Value.Null,
      Value.Integer 2, Value.Integer 0, Value.Null, Value.Null, Value.Null,
      Value.Null]
    global_variables := []
    stack_frames := []
    stack := [Value.Ref (r_same_uuid 0), Value.Ref (r_same_uuid 0)]
    abra_types := []
    uuid_counter := 0 }

/-- C8 counterexample: two refs carrying the same identity (UUID 7) are
equal at the `Ref` level, but `Value` equality — the comparison the VM's
`EQUALS` instruction performs — returns `false` on them (`Value`'s
`PartialEq` has no `Ref` arm), so `EQUALS` pushes `Bool(false)` where the
claim requires `true`. -/
theorem C8_ref_equality_counterexample :
    RefV.eq (r_same_uuid 0) (r_same_uuid 1) = true
    ∧ Value.eq (Value.Ref (r_same_uuid 0)) (Value.Ref (r_same_uuid 1)) = false
    ∧ equals_machine.run 5 = RunResult.Exited (Value.Bool false) :=
  ⟨rfl, rfl, rfl⟩

/-- C8 amended: `Ref::eq` compares exactly the UUIDs — identical identities
are equal regardless of `deleted` flags or object contents, so `Ref`
equality never depends on structural content; but `Value` equality (and
hence the VM's `EQUALS` on two `Value::Ref` operands) is *always* `false`,
even for identical identities. -/
theorem C8_ref_equality_amended :
    (∀ r1 r2 : RefV, RefV.eq r1 r2 = (r1.get_uuid == r2.get_uuid))
    ∧ (∀ (d1 d2 : Bool) (u : Nat) (o1 o2 : RefObject),
        RefV.eq (RefV.mk d1 u o1) (RefV.mk d2 u o2) = true)
    ∧ (∀ r1 r2 : RefV, Value.eq (Value.Ref r1) (Value.Ref r2) = false) :=
  ⟨fun _ _ => rfl,
   fun d1 d2 u o1 o2 => by simp [RefV.eq, RefV.get_uuid],
   fun _ _ => rfl⟩

/-- A machine about to execute `NEGATE` with `v` on top of the stack. -/
def c10_machine (v : Value) : ByteCodeMachine :=
  { bytecode := [ByteCode.NEGATE, ByteCode.EXIT]
    labels := []
    registers := [Value.Null, Value.Null, Value.Null, Value.Null, Value.Null,
      Value.Null, Value.Null, Value.Null, Value.Null, Value.Null,
      Value.Integer 1, Value.Integer 0, Value.Null, Value.Null, Value.Null,
      Value.Null]
    global_variables := []
    stack_frames := []
    stack := [v]
    abra_types := []
    uuid_counter := 0 }

/-- C10: unary `-e` compiles to the operand's code followed by `NEGATE`;
the VM executes `NEGATE` by popping one value and pushing
`Bool(!cast_to_bool(value))` — in particular for an Integer operand `i` the
result is `Bool(!(i != 0))` and for a Float operand `Bool(!(q == 0))`, and
a `Bool` is never an `Integer` or a `Float`, so executing compiled `-e`
never leaves the arithmetic negation of a numeric operand. -/
theorem C10_unary_neg_compiles_to_boolean_negate :
    (∀ e, compile_expression (Expression.Unary UnaryOpCode.NEG e) =
      compile_expression e ++ [ByteCode.NEGATE])
    ∧ (∀ (v : Value) (b : Bool), v.cast_to_bool = Except.ok b →
        (c10_machine v).run 5 = RunResult.Exited (Value.Bool (!b)))
    ∧ (∀ i : Int, (Value.Integer i).cast_to_bool = Except.ok (i != 0))
    ∧ (∀ q : Rat, (Value.Float q).cast_to_bool = Except.ok (q == 0))
    ∧ (∀ (b : Bool) (i : Int), Value.Bool b ≠ Value.Integer i)
    ∧ (∀ (b : Bool) (q : Rat), Value.Bool b ≠ Value.Float q) := by
  refine ⟨fun e => rfl, ?_, fun i => rfl, fun q => rfl,
    fun b i h => Value.noConfusion h, fun b q h => Value.noConfusion h⟩
  intro v b hb
  cases v with
  | Null => simp [Value.cast_to_bool] at hb
  | Integer i => injection hb with h; subst h; rfl
  | Float f => injection hb with h; subst h; rfl
  | Char c => injection hb with h; subst h; rfl
  | Bool x => injection hb with h; subst h; rfl
  | String s => injection hb with h; subst h; rfl
  | Ref r => injection hb with h; subst h; rfl

/-- Witness for C10 at the concrete operand `Integer 5`: `cast_to_bool`
succeeds with `true` and executing `NEGATE` leaves `Bool false` — not
`Integer (-5)`. -/
theorem C10_unary_neg_compiles_to_boolean_negate_witness :
    (Value.Integer 5).cast_to_bool = Except.ok true ∧
    (c10_machine (Value.Integer 5)).run 5 = RunResult.Exited (Value.Bool false) :=
  ⟨rfl, C10_unary_neg_compiles_to_boolean_negate.2.1 (Value.Integer 5) true rfl⟩

end Abra
